import Mathlib

/-!
Verification of the Subjugate Online game-server core.

This file shallowly embeds the Python sources of the repository
(`shared/utils.py`, `shared/constants.py`, `shared/game_data.py`,
`server/game_server/world_manager.py`, `server/game_server/combat_system.py`,
`server/game_server/territory_system.py`,
`server/game_server/reincarnation_system.py`,
`subjugate_online/shared/protocol.py`) into Lean and proves or refutes the
specification claims about them.

Modelling conventions:
* Python floats are modelled as rationals (`ℚ`); Python ints as `ℤ`
  or `ℕ` where they are used as identifiers.
* Python `int(x)` (truncation toward zero) is modelled by `pyInt`.
* Euclidean distance (`math.sqrt`) is a real number; in executable
  definitions the comparison `calculate_distance p q <= r` is replaced by
  the decidable `distLe p q r`, proved extensionally equal to the source
  comparison in `distLe_iff`.
* Mutating methods are modelled as state-passing functions.
-/

namespace Subjugate

/-- Python `int(x)` applied to a float: truncation toward zero. -/
def pyInt (q : ℚ) : ℤ := if 0 ≤ q then ⌊q⌋ else ⌈q⌉

/-- Source `shared/utils.py` `clamp(value, min_val, max_val) = max(min_val, min(max_val, value))`. -/
def clamp (value min_val max_val : ℚ) : ℚ := max min_val (min max_val value)

theorem pyInt_mono {u v : ℚ} (h : u ≤ v) : pyInt u ≤ pyInt v := by
  unfold pyInt
  split_ifs with hu hv
  · exact Int.floor_le_floor h
  · exact absurd (le_trans hu h) hv
  · calc ⌈u⌉ ≤ ⌈(0:ℚ)⌉ := Int.ceil_le_ceil (le_of_not_le hu)
      _ = 0 := by simp
      _ ≤ ⌊v⌋ := Int.floor_nonneg.mpr (by assumption)
  · exact Int.ceil_le_ceil h

theorem pyInt_le_self {q : ℚ} (h : 0 ≤ q) : (pyInt q : ℚ) ≤ q := by
  unfold pyInt
  rw [if_pos h]
  exact Int.floor_le q

theorem pyInt_nonneg {q : ℚ} (h : 0 ≤ q) : 0 ≤ pyInt q := by
  unfold pyInt
  rw [if_pos h]
  exact Int.floor_nonneg.mpr h

/-- Truncation spreads points at most one cell further apart than they are:
if `|u - v| ≤ d` then the truncated values differ by at most `⌊d⌋ + 1`. -/
theorem pyInt_sub_le {u v d : ℚ} (hd : 0 ≤ d) (h : u - v ≤ d) :
    pyInt u - pyInt v ≤ pyInt d + 1 := by
  have hdf : pyInt d = ⌊d⌋ := by unfold pyInt; rw [if_pos hd]
  rw [hdf]
  unfold pyInt
  split_ifs with hu hv
  · -- both non-negative: floor vs floor
    have h1 : ⌊u⌋ ≤ ⌊v + d⌋ := Int.floor_le_floor (by linarith)
    have h2 : ⌊v + d⌋ ≤ ⌊v⌋ + ⌊d⌋ + 1 := by
      have hfl : (⌊v + d⌋ : ℚ) ≤ v + d := Int.floor_le _
      have hb : v + d < (⌊v⌋ : ℚ) + 1 + ((⌊d⌋ : ℚ) + 1) := by
        have := Int.lt_floor_add_one v
        have := Int.lt_floor_add_one d
        linarith
      have hlt : (⌊v + d⌋ : ℚ) < (⌊v⌋ : ℚ) + (⌊d⌋ : ℚ) + 2 := by linarith
      have : ⌊v + d⌋ < ⌊v⌋ + ⌊d⌋ + 2 := by exact_mod_cast hlt
      omega
    omega
  · -- u ≥ 0, v < 0: floor vs ceil; truncation pulls both toward zero
    have h1 : (⌊u⌋ : ℚ) ≤ u := Int.floor_le u
    have h2 : v ≤ (⌈v⌉ : ℚ) := Int.le_ceil v
    have : (⌊u⌋ : ℚ) - (⌈v⌉ : ℚ) ≤ d := by linarith
    have : (⌊u⌋ - ⌈v⌉ : ℤ) ≤ ⌊d⌋ := by
      rw [Int.le_floor]
      push_cast
      linarith
    omega
  · -- u < 0, v ≥ 0: result is ≤ 0
    have h1 : ⌈u⌉ ≤ 0 := by
      have : ⌈u⌉ ≤ ⌈(0:ℚ)⌉ := Int.ceil_le_ceil (le_of_not_le hu)
      simpa using this
    have h2 : 0 ≤ ⌊v⌋ := Int.floor_nonneg.mpr (by assumption)
    have h3 : 0 ≤ ⌊d⌋ := Int.floor_nonneg.mpr hd
    omega
  · -- both negative: ceil vs ceil
    have h1 : ⌈u⌉ ≤ ⌈v + d⌉ := Int.ceil_le_ceil (by linarith)
    have h2 : ⌈v + d⌉ ≤ ⌈v⌉ + ⌈d⌉ := Int.ceil_add_le v d
    have h3 : ⌈d⌉ ≤ ⌊d⌋ + 1 := Int.ceil_le_floor_add_one d
    omega

/-! ### Positions and distance (`shared/utils.py`) -/

/-- A 3D position, modelling the Python `(x, y, z)` float tuple. -/
structure Position where
  x : ℚ
  y : ℚ
  z : ℚ
  deriving DecidableEq, Repr

/-- Squared Euclidean distance; the radicand of `calculate_distance`. -/
def distSq (p q : Position) : ℚ :=
  (p.x - q.x) * (p.x - q.x) + (p.y - q.y) * (p.y - q.y) + (p.z - q.z) * (p.z - q.z)

/-- Source `shared/utils.py` `calculate_distance`: 3D Euclidean distance
`math.sqrt(dx*dx + dy*dy + dz*dz)`. -/
noncomputable def calculate_distance (p q : Position) : ℝ := Real.sqrt ((distSq p q : ℚ) : ℝ)

/-- Decidable form of the source comparison `calculate_distance(p, q) <= r`,
used wherever the Python code branches on that comparison. -/
def distLe (p q : Position) (r : ℚ) : Bool := decide (0 ≤ r ∧ distSq p q ≤ r * r)

theorem distSq_nonneg (p q : Position) : 0 ≤ distSq p q := by
  unfold distSq
  have h1 := mul_self_nonneg (p.x - q.x)
  have h2 := mul_self_nonneg (p.y - q.y)
  have h3 := mul_self_nonneg (p.z - q.z)
  linarith

/-- Source `distLe` agrees with the source's comparison of the real square-root
distance against the radius. -/
theorem distLe_iff (p q : Position) (r : ℚ) :
    distLe p q r = true ↔ calculate_distance p q ≤ (r : ℝ) := by
  unfold distLe calculate_distance
  rw [Real.sqrt_le_iff]
  simp only [decide_eq_true_eq]
  constructor
  · rintro ⟨h1, h2⟩
    refine ⟨by exact_mod_cast h1, ?_⟩
    have : ((distSq p q : ℚ) : ℝ) ≤ ((r * r : ℚ) : ℝ) := by exact_mod_cast h2
    calc ((distSq p q : ℚ) : ℝ) ≤ ((r * r : ℚ) : ℝ) := this
      _ = (r : ℝ) ^ 2 := by push_cast; ring
  · rintro ⟨h1, h2⟩
    refine ⟨by exact_mod_cast h1, ?_⟩
    have : ((distSq p q : ℚ) : ℝ) ≤ ((r : ℚ) : ℝ) * ((r : ℚ) : ℝ) := by
      calc ((distSq p q : ℚ) : ℝ) ≤ (r : ℝ) ^ 2 := h2
        _ = ((r : ℚ) : ℝ) * ((r : ℚ) : ℝ) := by ring
    exact_mod_cast this

/-- If the Euclidean distance is at most `r` then each coordinate
difference is at most `r` in absolute value. -/
theorem abs_coord_le_of_distSq_le {p q : Position} {r : ℚ} (hr : 0 ≤ r)
    (h : distSq p q ≤ r * r) :
    |p.x - q.x| ≤ r ∧ |p.z - q.z| ≤ r := by
  unfold distSq at h
  constructor
  · rw [abs_le]
    constructor <;> nlinarith [sq_nonneg (p.y - q.y), sq_nonneg (p.z - q.z),
      sq_nonneg (p.x - q.x + r), sq_nonneg (p.x - q.x - r)]
  · rw [abs_le]
    constructor <;> nlinarith [sq_nonneg (p.y - q.y), sq_nonneg (p.x - q.x),
      sq_nonneg (p.z - q.z + r), sq_nonneg (p.z - q.z - r)]

/-! ### Chunk ids (`shared/utils.py` / `shared/constants.py`) -/

/-- Source `shared/constants.py` `CHUNK_SIZE = 50.0`. -/
def CHUNK_SIZE : ℚ := 50

/-- Source `shared/utils.py` `get_chunk_id`:
`(int(position[0] / chunk_size), int(position[2] / chunk_size))`. -/
def get_chunk_id (position : Position) (chunk_size : ℚ) : ℤ × ℤ :=
  (pyInt (position.x / chunk_size), pyInt (position.z / chunk_size))

/-- Python `range(lo, hi)` over integers, as a list. -/
def rangeList (lo hi : ℤ) : List ℤ :=
  (List.range (hi - lo).toNat).map fun (i : ℕ) => lo + (i : ℤ)

theorem mem_rangeList {lo hi d : ℤ} : d ∈ rangeList lo hi ↔ lo ≤ d ∧ d < hi := by
  simp only [rangeList, List.mem_map, List.mem_range]
  constructor
  · rintro ⟨i, hi', rfl⟩
    omega
  · rintro ⟨h1, h2⟩
    exact ⟨(d - lo).toNat, by omega, by omega⟩

/-- Source `shared/utils.py` `get_surrounding_chunks`: the square ring of chunk ids
with offsets `dx, dz` in `range(-radius, radius + 1)` in both axes. -/
def get_surrounding_chunks (chunk_id : ℤ × ℤ) (radius : ℤ) : List (ℤ × ℤ) :=
  (rangeList (-radius) (radius + 1)).flatMap fun dx =>
    (rangeList (-radius) (radius + 1)).map fun dz =>
      (chunk_id.1 + dx, chunk_id.2 + dz)

theorem mem_get_surrounding_chunks {chunk_id c : ℤ × ℤ} {radius : ℤ}
    (hx : |c.1 - chunk_id.1| ≤ radius) (hz : |c.2 - chunk_id.2| ≤ radius) :
    c ∈ get_surrounding_chunks chunk_id radius := by
  rw [abs_le] at hx hz
  obtain ⟨c1, c2⟩ := c
  simp only [get_surrounding_chunks, List.mem_flatMap, List.mem_map, Prod.mk.injEq,
    mem_rangeList] at *
  exact ⟨c1 - chunk_id.1, by omega, c2 - chunk_id.2, by omega, by omega, by omega⟩

/-- Entities within Euclidean distance `r` of the query point have a chunk id
inside the ring of radius `int(r / CHUNK_SIZE) + 1` around the query chunk. -/
theorem chunk_id_in_ring {p e : Position} {r : ℚ} (hr : 0 ≤ r)
    (h : distSq p e ≤ r * r) :
    get_chunk_id e CHUNK_SIZE ∈
      get_surrounding_chunks (get_chunk_id p CHUNK_SIZE) (pyInt (r / CHUNK_SIZE) + 1) := by
  obtain ⟨hx, hz⟩ := abs_coord_le_of_distSq_le hr h
  have hcs : (0:ℚ) < CHUNK_SIZE := by norm_num [CHUNK_SIZE]
  have hdiv : 0 ≤ r / CHUNK_SIZE := div_nonneg hr (le_of_lt hcs)
  apply mem_get_surrounding_chunks
  · show |pyInt (e.x / CHUNK_SIZE) - pyInt (p.x / CHUNK_SIZE)| ≤ pyInt (r / CHUNK_SIZE) + 1
    rw [abs_le]
    constructor
    · have : pyInt (p.x / CHUNK_SIZE) - pyInt (e.x / CHUNK_SIZE) ≤ pyInt (r / CHUNK_SIZE) + 1 := by
        apply pyInt_sub_le hdiv
        rw [div_sub_div_same]
        apply div_le_div_of_nonneg_right _ hcs.le
        · rw [abs_le] at hx; linarith
      omega
    · apply pyInt_sub_le hdiv
      rw [div_sub_div_same]
      apply div_le_div_of_nonneg_right _ hcs.le
      · rw [abs_le] at hx; linarith
  · show |pyInt (e.z / CHUNK_SIZE) - pyInt (p.z / CHUNK_SIZE)| ≤ pyInt (r / CHUNK_SIZE) + 1
    rw [abs_le]
    constructor
    · have : pyInt (p.z / CHUNK_SIZE) - pyInt (e.z / CHUNK_SIZE) ≤ pyInt (r / CHUNK_SIZE) + 1 := by
        apply pyInt_sub_le hdiv
        rw [div_sub_div_same]
        apply div_le_div_of_nonneg_right _ hcs.le
        · rw [abs_le] at hz; linarith
      omega
    · apply pyInt_sub_le hdiv
      rw [div_sub_div_same]
      apply div_le_div_of_nonneg_right _ hcs.le
      · rw [abs_le] at hz; linarith

/-! ### Entities and the world manager (`server/game_server/world_manager.py`) -/

/-- The `character_data` dict handed to `PlayerEntity.__init__`. -/
structure CharacterData where
  position_x : ℚ
  position_y : ℚ
  position_z : ℚ
  name : String
  level : ℤ
  hp : ℤ
  max_hp : ℤ
  mp : ℤ
  max_mp : ℤ
  attack : ℤ
  defense : ℤ
  speed : ℚ
  deriving DecidableEq, Repr

/-- Source `world_manager.py` `PlayerEntity` (the fields the verified claims use). -/
structure PlayerEntity where
  character_id : ℕ
  name : String
  level : ℤ
  hp : ℤ
  max_hp : ℤ
  mp : ℤ
  max_mp : ℤ
  attack : ℤ
  defense : ℤ
  speed : ℚ
  position : Position
  rotation : ℚ
  chunk_id : ℤ × ℤ
  is_dead : Bool
  last_attack_time : ℚ
  deriving DecidableEq, Repr

/-- Source `PlayerEntity.__init__`: position from the snapshot, chunk id derived,
combat state fresh. -/
def PlayerEntity.init (character_id : ℕ) (d : CharacterData) : PlayerEntity :=
  let position : Position := ⟨d.position_x, d.position_y, d.position_z⟩
  { character_id := character_id
    name := d.name
    level := d.level
    hp := d.hp
    max_hp := d.max_hp
    mp := d.mp
    max_mp := d.max_mp
    attack := d.attack
    defense := d.defense
    speed := d.speed
    position := position
    rotation := 0
    chunk_id := get_chunk_id position CHUNK_SIZE
    is_dead := false
    last_attack_time := 0 }

/-- Source `Entity.update_position` for players. -/
def PlayerEntity.update_position (p : PlayerEntity) (x y z rotation : ℚ) : PlayerEntity :=
  let position : Position := ⟨x, y, z⟩
  { p with position := position
           rotation := rotation
           chunk_id := get_chunk_id position CHUNK_SIZE }

/-- Source `PlayerEntity.apply_damage`: `hp = max(0, hp - damage)`, sets the dead
flag and returns `True` exactly when hp reaches 0. -/
def PlayerEntity.apply_damage (p : PlayerEntity) (damage : ℤ) : PlayerEntity × Bool :=
  let hp' := max 0 (p.hp - damage)
  if hp' = 0 then ({ p with hp := hp', is_dead := true }, true)
  else ({ p with hp := hp' }, false)

/-- Source `PlayerEntity.heal`: `hp = min(max_hp, hp + amount)`. -/
def PlayerEntity.heal (p : PlayerEntity) (amount : ℤ) : PlayerEntity :=
  { p with hp := min p.max_hp (p.hp + amount) }

/-- Source `PlayerEntity.restore_mp`: `mp = min(max_mp, mp + amount)`. -/
def PlayerEntity.restore_mp (p : PlayerEntity) (amount : ℤ) : PlayerEntity :=
  { p with mp := min p.max_mp (p.mp + amount) }

/-- Source `PlayerEntity.can_attack`. -/
def PlayerEntity.can_attack (p : PlayerEntity) (current_time cooldown : ℚ) : Bool :=
  decide (cooldown ≤ current_time - p.last_attack_time)

/-- The `npc_data` dict handed to `NPCEntity.__init__`. -/
structure NpcData where
  npc_id : ℕ
  name : String
  npc_type : ℕ
  level : ℤ
  hp : ℤ
  attack : ℤ
  defense : ℤ
  xp_reward : ℤ
  aggro_range : ℚ
  deriving DecidableEq, Repr

/-- Source `world_manager.py` `NPCEntity` (the fields the verified claims use). -/
structure NPCEntity where
  instance_id : ℕ
  npc_id : ℕ
  name : String
  npc_type : ℕ
  level : ℤ
  hp : ℤ
  max_hp : ℤ
  attack : ℤ
  defense : ℤ
  xp_reward : ℤ
  aggro_range : ℚ
  position : Position
  rotation : ℚ
  chunk_id : ℤ × ℤ
  spawn_position : Position
  last_attack_time : ℚ
  deriving DecidableEq, Repr

/-- Source `NPCEntity.__init__`. -/
def NPCEntity.init (instance_id : ℕ) (d : NpcData) (position : Position) : NPCEntity :=
  { instance_id := instance_id
    npc_id := d.npc_id
    name := d.name
    npc_type := d.npc_type
    level := d.level
    hp := d.hp
    max_hp := d.hp
    attack := d.attack
    defense := d.defense
    xp_reward := d.xp_reward
    aggro_range := d.aggro_range
    position := position
    rotation := 0
    chunk_id := get_chunk_id position CHUNK_SIZE
    spawn_position := position
    last_attack_time := 0 }

/-- Source `Entity.update_position` for NPCs. -/
def NPCEntity.update_position (npc : NPCEntity) (x y z rotation : ℚ) : NPCEntity :=
  let position : Position := ⟨x, y, z⟩
  { npc with position := position
             rotation := rotation
             chunk_id := get_chunk_id position CHUNK_SIZE }

/-- Source `NPCEntity.apply_damage`: `hp = max(0, hp - damage)`; returns whether hp
reached 0. -/
def NPCEntity.apply_damage (npc : NPCEntity) (damage : ℤ) : NPCEntity × Bool :=
  let hp' := max 0 (npc.hp - damage)
  ({ npc with hp := hp' }, hp' = 0)

/-- Source `WorldManager` state: entity dictionaries plus the two chunk indexes.
Python dicts/sets are modelled as functions; a chunk bucket is the list of
ids it holds (set semantics are kept by inserting only absent ids). -/
structure WorldState where
  players : ℕ → Option PlayerEntity
  npcs : ℕ → Option NPCEntity
  player_chunks : ℤ × ℤ → List ℕ
  npc_chunks : ℤ × ℤ → List ℕ
  next_npc_instance_id : ℕ

/-- The freshly constructed `WorldManager`. -/
def WorldState.init : WorldState :=
  { players := fun _ => none
    npcs := fun _ => none
    player_chunks := fun _ => []
    npc_chunks := fun _ => []
    next_npc_instance_id := 1 }

/-- Source `WorldManager._add_to_chunk`. -/
def addToChunk (chunks : ℤ × ℤ → List ℕ) (chunk : ℤ × ℤ) (entity_id : ℕ) :
    ℤ × ℤ → List ℕ :=
  fun c => if c = chunk then
      (if entity_id ∈ chunks chunk then chunks chunk else entity_id :: chunks chunk)
    else chunks c

/-- Source `WorldManager._remove_from_chunk` (dropping empty buckets is invisible in
this representation: a missing bucket and an empty one both read back `[]`). -/
def removeFromChunk (chunks : ℤ × ℤ → List ℕ) (chunk : ℤ × ℤ) (entity_id : ℕ) :
    ℤ × ℤ → List ℕ :=
  fun c => if c = chunk then (chunks chunk).filter (fun i => i ≠ entity_id) else chunks c

/-- Source `WorldManager.add_player`. -/
def WorldState.add_player (s : WorldState) (character_id : ℕ) (d : CharacterData) :
    WorldState :=
  let player := PlayerEntity.init character_id d
  { s with
    players := fun i => if i = character_id then some player else s.players i
    player_chunks := addToChunk s.player_chunks player.chunk_id character_id }

/-- Source `WorldManager.remove_player`. -/
def WorldState.remove_player (s : WorldState) (character_id : ℕ) : WorldState :=
  match s.players character_id with
  | none => s
  | some player =>
    { s with
      players := fun i => if i = character_id then none else s.players i
      player_chunks := removeFromChunk s.player_chunks player.chunk_id character_id }

/-- Source `WorldManager.update_player_position`. -/
def WorldState.update_player_position (s : WorldState) (character_id : ℕ)
    (x y z rotation : ℚ) : WorldState :=
  match s.players character_id with
  | none => s
  | some player =>
    let old_chunk := player.chunk_id
    let player' := player.update_position x y z rotation
    { s with
      players := fun i => if i = character_id then some player' else s.players i
      player_chunks :=
        if player'.chunk_id ≠ old_chunk then
          addToChunk (removeFromChunk s.player_chunks old_chunk character_id)
            player'.chunk_id character_id
        else s.player_chunks }

/-- Source `WorldManager.spawn_npc`. -/
def WorldState.spawn_npc (s : WorldState) (d : NpcData) (position : Position) :
    WorldState :=
  let instance_id := s.next_npc_instance_id
  let npc := NPCEntity.init instance_id d position
  { s with
    npcs := fun i => if i = instance_id then some npc else s.npcs i
    npc_chunks := addToChunk s.npc_chunks npc.chunk_id instance_id
    next_npc_instance_id := instance_id + 1 }

/-- Source `WorldManager.remove_npc`. -/
def WorldState.remove_npc (s : WorldState) (instance_id : ℕ) : WorldState :=
  match s.npcs instance_id with
  | none => s
  | some npc =>
    { s with
      npcs := fun i => if i = instance_id then none else s.npcs i
      npc_chunks := removeFromChunk s.npc_chunks npc.chunk_id instance_id }

/-- Source `WorldManager.update_npc_position`. -/
def WorldState.update_npc_position (s : WorldState) (instance_id : ℕ)
    (x y z rotation : ℚ) : WorldState :=
  match s.npcs instance_id with
  | none => s
  | some npc =>
    let old_chunk := npc.chunk_id
    let npc' := npc.update_position x y z rotation
    { s with
      npcs := fun i => if i = instance_id then some npc' else s.npcs i
      npc_chunks :=
        if npc'.chunk_id ≠ old_chunk then
          addToChunk (removeFromChunk s.npc_chunks old_chunk instance_id)
            npc'.chunk_id instance_id
        else s.npc_chunks }

/-- Source `WorldManager.get_nearby_players`: coarse chunk-ring scan with the exact
distance filter (`distLe` is the source's `calculate_distance(...) <= radius`,
see `distLe_iff`). -/
def WorldState.get_nearby_players (s : WorldState) (position : Position) (radius : ℚ) :
    List PlayerEntity :=
  let chunk_id := get_chunk_id position CHUNK_SIZE
  let search_radius := pyInt (radius / CHUNK_SIZE) + 1
  let nearby_chunks := get_surrounding_chunks chunk_id search_radius
  nearby_chunks.flatMap fun chunk =>
    (s.player_chunks chunk).filterMap fun player_id =>
      match s.players player_id with
      | some player => if distLe position player.position radius then some player else none
      | none => none

/-- Source `WorldManager.get_nearby_npcs`. -/
def WorldState.get_nearby_npcs (s : WorldState) (position : Position) (radius : ℚ) :
    List NPCEntity :=
  let chunk_id := get_chunk_id position CHUNK_SIZE
  let search_radius := pyInt (radius / CHUNK_SIZE) + 1
  let nearby_chunks := get_surrounding_chunks chunk_id search_radius
  nearby_chunks.flatMap fun chunk =>
    (s.npc_chunks chunk).filterMap fun npc_id =>
      match s.npcs npc_id with
      | some npc => if distLe position npc.position radius then some npc else none
      | none => none

/-- The world-manager operations a client of the registry can perform. -/
inductive WorldOp where
  | addPlayer (character_id : ℕ) (d : CharacterData)
  | removePlayer (character_id : ℕ)
  | updatePlayerPosition (character_id : ℕ) (x y z rotation : ℚ)
  | spawnNpc (d : NpcData) (position : Position)
  | removeNpc (instance_id : ℕ)
  | updateNpcPosition (instance_id : ℕ) (x y z rotation : ℚ)

/-- Run one operation. -/
def WorldState.applyOp (s : WorldState) : WorldOp → WorldState
  | .addPlayer character_id d => s.add_player character_id d
  | .removePlayer character_id => s.remove_player character_id
  | .updatePlayerPosition character_id x y z rot => s.update_player_position character_id x y z rot
  | .spawnNpc d position => s.spawn_npc d position
  | .removeNpc instance_id => s.remove_npc instance_id
  | .updateNpcPosition instance_id x y z rot => s.update_npc_position instance_id x y z rot

/-- Run a sequence of operations from a state. -/
def WorldState.applyOps (s : WorldState) (ops : List WorldOp) : WorldState :=
  ops.foldl WorldState.applyOp s

/-- Spatial-index soundness: every stored entity's `chunk_id` field is the
chunk of its current position, and its id is in that chunk's bucket. -/
def ChunkInv (s : WorldState) : Prop :=
  (∀ cid pl, s.players cid = some pl →
    pl.chunk_id = get_chunk_id pl.position CHUNK_SIZE ∧ cid ∈ s.player_chunks pl.chunk_id) ∧
  (∀ iid npc, s.npcs iid = some npc →
    npc.chunk_id = get_chunk_id npc.position CHUNK_SIZE ∧ iid ∈ s.npc_chunks npc.chunk_id)

theorem mem_addToChunk_self (chunks : ℤ × ℤ → List ℕ) (chunk : ℤ × ℤ) (entity_id : ℕ) :
    entity_id ∈ addToChunk chunks chunk entity_id chunk := by
  unfold addToChunk
  rw [if_pos rfl]
  by_cases h : entity_id ∈ chunks chunk
  · rw [if_pos h]; exact h
  · rw [if_neg h]; exact List.mem_cons_self _ _

theorem mem_addToChunk_of_mem {chunks : ℤ × ℤ → List ℕ} {c : ℤ × ℤ} {i : ℕ}
    (h : i ∈ chunks c) (chunk : ℤ × ℤ) (entity_id : ℕ) :
    i ∈ addToChunk chunks chunk entity_id c := by
  unfold addToChunk
  split_ifs with hc h2
  · subst hc; exact h
  · subst hc; exact List.mem_cons_of_mem _ h
  · exact h

theorem mem_removeFromChunk_of_mem {chunks : ℤ × ℤ → List ℕ} {c : ℤ × ℤ} {i : ℕ}
    (h : i ∈ chunks c) (chunk : ℤ × ℤ) (entity_id : ℕ) (hne : i ≠ entity_id) :
    i ∈ removeFromChunk chunks chunk entity_id c := by
  unfold removeFromChunk
  split_ifs with hc
  · subst hc
    exact List.mem_filter.mpr ⟨h, by simpa using hne⟩
  · exact h

theorem chunkInv_init : ChunkInv WorldState.init := by
  constructor <;> intro i e h <;> simp [WorldState.init] at h

theorem remove_player_none {s : WorldState} {character_id : ℕ}
    (h : s.players character_id = none) : s.remove_player character_id = s := by
  unfold WorldState.remove_player
  rw [h]

theorem remove_player_some {s : WorldState} {character_id : ℕ} {player : PlayerEntity}
    (h : s.players character_id = some player) :
    s.remove_player character_id =
      { s with
        players := fun i => if i = character_id then none else s.players i
        player_chunks := removeFromChunk s.player_chunks player.chunk_id character_id } := by
  unfold WorldState.remove_player
  rw [h]

theorem update_player_position_none {s : WorldState} {character_id : ℕ} {x y z rot : ℚ}
    (h : s.players character_id = none) :
    s.update_player_position character_id x y z rot = s := by
  unfold WorldState.update_player_position
  rw [h]

theorem update_player_position_some {s : WorldState} {character_id : ℕ}
    {player : PlayerEntity} {x y z rot : ℚ}
    (h : s.players character_id = some player) :
    s.update_player_position character_id x y z rot =
      { s with
        players := fun i =>
          if i = character_id then some (player.update_position x y z rot) else s.players i
        player_chunks :=
          if (player.update_position x y z rot).chunk_id ≠ player.chunk_id then
            addToChunk (removeFromChunk s.player_chunks player.chunk_id character_id)
              (player.update_position x y z rot).chunk_id character_id
          else s.player_chunks } := by
  unfold WorldState.update_player_position
  rw [h]

theorem remove_npc_none {s : WorldState} {instance_id : ℕ}
    (h : s.npcs instance_id = none) : s.remove_npc instance_id = s := by
  unfold WorldState.remove_npc
  rw [h]

theorem remove_npc_some {s : WorldState} {instance_id : ℕ} {npc : NPCEntity}
    (h : s.npcs instance_id = some npc) :
    s.remove_npc instance_id =
      { s with
        npcs := fun i => if i = instance_id then none else s.npcs i
        npc_chunks := removeFromChunk s.npc_chunks npc.chunk_id instance_id } := by
  unfold WorldState.remove_npc
  rw [h]

theorem update_npc_position_none {s : WorldState} {instance_id : ℕ} {x y z rot : ℚ}
    (h : s.npcs instance_id = none) :
    s.update_npc_position instance_id x y z rot = s := by
  unfold WorldState.update_npc_position
  rw [h]

theorem update_npc_position_some {s : WorldState} {instance_id : ℕ}
    {npc : NPCEntity} {x y z rot : ℚ}
    (h : s.npcs instance_id = some npc) :
    s.update_npc_position instance_id x y z rot =
      { s with
        npcs := fun i =>
          if i = instance_id then some (npc.update_position x y z rot) else s.npcs i
        npc_chunks :=
          if (npc.update_position x y z rot).chunk_id ≠ npc.chunk_id then
            addToChunk (removeFromChunk s.npc_chunks npc.chunk_id instance_id)
              (npc.update_position x y z rot).chunk_id instance_id
          else s.npc_chunks } := by
  unfold WorldState.update_npc_position
  rw [h]

theorem chunkInv_applyOp {s : WorldState} (hs : ChunkInv s) (op : WorldOp) :
    ChunkInv (s.applyOp op) := by
  obtain ⟨hp, hn⟩ := hs
  cases op with
  | addPlayer character_id d =>
    show ChunkInv (s.add_player character_id d)
    unfold WorldState.add_player
    constructor
    · intro cid pl h
      simp only at h ⊢
      by_cases hc : cid = character_id
      · subst hc
        rw [if_pos rfl] at h
        cases h
        exact ⟨rfl, mem_addToChunk_self _ _ _⟩
      · rw [if_neg hc] at h
        obtain ⟨h1, h2⟩ := hp cid pl h
        exact ⟨h1, mem_addToChunk_of_mem h2 _ _⟩
    · intro iid npc h
      exact hn iid npc h
  | removePlayer character_id =>
    show ChunkInv (s.remove_player character_id)
    cases hcase : s.players character_id with
    | none => rw [remove_player_none hcase]; exact ⟨hp, hn⟩
    | some removed =>
      rw [remove_player_some hcase]
      constructor
      · intro cid pl h
        simp only at h ⊢
        by_cases hc : cid = character_id
        · subst hc; rw [if_pos rfl] at h; cases h
        · rw [if_neg hc] at h
          obtain ⟨h1, h2⟩ := hp cid pl h
          exact ⟨h1, mem_removeFromChunk_of_mem h2 _ _ hc⟩
      · intro iid npc h
        exact hn iid npc h
  | updatePlayerPosition character_id x y z rot =>
    show ChunkInv (s.update_player_position character_id x y z rot)
    cases hcase : s.players character_id with
    | none => rw [update_player_position_none hcase]; exact ⟨hp, hn⟩
    | some moved =>
      rw [update_player_position_some hcase]
      constructor
      · intro cid pl h
        simp only at h ⊢
        by_cases hc : cid = character_id
        · subst hc
          rw [if_pos rfl] at h
          cases h
          refine ⟨rfl, ?_⟩
          split_ifs with hchunk
          · exact mem_addToChunk_self _ _ _
          · push_neg at hchunk
            rw [hchunk]
            exact (hp cid moved hcase).2
        · rw [if_neg hc] at h
          obtain ⟨h1, h2⟩ := hp cid pl h
          refine ⟨h1, ?_⟩
          split_ifs with hchunk
          · exact mem_addToChunk_of_mem (mem_removeFromChunk_of_mem h2 _ _ hc) _ _
          · exact h2
      · intro iid npc h
        exact hn iid npc h
  | spawnNpc d position =>
    show ChunkInv (s.spawn_npc d position)
    unfold WorldState.spawn_npc
    constructor
    · intro cid pl h
      exact hp cid pl h
    · intro iid npc h
      simp only at h ⊢
      by_cases hc : iid = s.next_npc_instance_id
      · subst hc
        rw [if_pos rfl] at h
        cases h
        exact ⟨rfl, mem_addToChunk_self _ _ _⟩
      · rw [if_neg hc] at h
        obtain ⟨h1, h2⟩ := hn iid npc h
        exact ⟨h1, mem_addToChunk_of_mem h2 _ _⟩
  | removeNpc instance_id =>
    show ChunkInv (s.remove_npc instance_id)
    cases hcase : s.npcs instance_id with
    | none => rw [remove_npc_none hcase]; exact ⟨hp, hn⟩
    | some removed =>
      rw [remove_npc_some hcase]
      constructor
      · intro cid pl h
        exact hp cid pl h
      · intro iid npc h
        simp only at h ⊢
        by_cases hc : iid = instance_id
        · subst hc; rw [if_pos rfl] at h; cases h
        · rw [if_neg hc] at h
          obtain ⟨h1, h2⟩ := hn iid npc h
          exact ⟨h1, mem_removeFromChunk_of_mem h2 _ _ hc⟩
  | updateNpcPosition instance_id x y z rot =>
    show ChunkInv (s.update_npc_position instance_id x y z rot)
    cases hcase : s.npcs instance_id with
    | none => rw [update_npc_position_none hcase]; exact ⟨hp, hn⟩
    | some moved =>
      rw [update_npc_position_some hcase]
      constructor
      · intro cid pl h
        exact hp cid pl h
      · intro iid npc h
        simp only at h ⊢
        by_cases hc : iid = instance_id
        · subst hc
          rw [if_pos rfl] at h
          cases h
          refine ⟨rfl, ?_⟩
          split_ifs with hchunk
          · exact mem_addToChunk_self _ _ _
          · push_neg at hchunk
            rw [hchunk]
            exact (hn iid moved hcase).2
        · rw [if_neg hc] at h
          obtain ⟨h1, h2⟩ := hn iid npc h
          refine ⟨h1, ?_⟩
          split_ifs with hchunk
          · exact mem_addToChunk_of_mem (mem_removeFromChunk_of_mem h2 _ _ hc) _ _
          · exact h2

theorem chunkInv_foldl {s : WorldState} (hs : ChunkInv s) (ops : List WorldOp) :
    ChunkInv (s.applyOps ops) := by
  induction ops generalizing s with
  | nil => exact hs
  | cons op rest ih => exact ih (chunkInv_applyOp hs op)

theorem chunkInv_applyOps (ops : List WorldOp) :
    ChunkInv (WorldState.init.applyOps ops) :=
  chunkInv_foldl chunkInv_init ops

theorem get_nearby_players_complete {s : WorldState} (hs : ChunkInv s)
    {cid : ℕ} {pl : PlayerEntity} (hpl : s.players cid = some pl)
    {position : Position} {radius : ℚ} (hr : 0 ≤ radius)
    (hdist : distLe position pl.position radius = true) :
    pl ∈ s.get_nearby_players position radius := by
  obtain ⟨h1, h2⟩ := hs.1 cid pl hpl
  unfold WorldState.get_nearby_players
  rw [List.mem_flatMap]
  refine ⟨pl.chunk_id, ?_, ?_⟩
  · rw [h1]
    have hsq : distSq position pl.position ≤ radius * radius :=
      (of_decide_eq_true hdist).2
    exact chunk_id_in_ring hr hsq
  · rw [List.mem_filterMap]
    refine ⟨cid, h2, ?_⟩
    rw [hpl]
    simp only [hdist, if_true]

theorem get_nearby_npcs_complete {s : WorldState} (hs : ChunkInv s)
    {iid : ℕ} {npc : NPCEntity} (hnpc : s.npcs iid = some npc)
    {position : Position} {radius : ℚ} (hr : 0 ≤ radius)
    (hdist : distLe position npc.position radius = true) :
    npc ∈ s.get_nearby_npcs position radius := by
  obtain ⟨h1, h2⟩ := hs.2 iid npc hnpc
  unfold WorldState.get_nearby_npcs
  rw [List.mem_flatMap]
  refine ⟨npc.chunk_id, ?_, ?_⟩
  · rw [h1]
    have hsq : distSq position npc.position ≤ radius * radius :=
      (of_decide_eq_true hdist).2
    exact chunk_id_in_ring hr hsq
  · rw [List.mem_filterMap]
    refine ⟨iid, h2, ?_⟩
    rw [hnpc]
    simp only [hdist, if_true]

/-- C1: after any sequence of add/spawn/update/remove operations, for every
query point `p`, radius `r ≥ 0` and category, every stored entity of that
category whose exact Euclidean distance from `p` is at most `r` appears in
the list returned by `get_nearby_players` / `get_nearby_npcs`: the coarse
chunk-ring scan (`int(r / CHUNK_SIZE) + 1` ring, truncating chunk ids toward
zero) followed by the exact distance filter never produces a false
negative. -/
theorem nearby_query_no_false_negatives (ops : List WorldOp) (p : Position) (r : ℚ)
    (hr : 0 ≤ r) :
    (∀ cid pl, (WorldState.init.applyOps ops).players cid = some pl →
      calculate_distance p pl.position ≤ (r : ℝ) →
      pl ∈ (WorldState.init.applyOps ops).get_nearby_players p r) ∧
    (∀ iid npc, (WorldState.init.applyOps ops).npcs iid = some npc →
      calculate_distance p npc.position ≤ (r : ℝ) →
      npc ∈ (WorldState.init.applyOps ops).get_nearby_npcs p r) := by
  have hinv := chunkInv_applyOps ops
  constructor
  · intro cid pl hpl hdist
    exact get_nearby_players_complete hinv hpl hr ((distLe_iff _ _ _).mpr hdist)
  · intro iid npc hnpc hdist
    exact get_nearby_npcs_complete hinv hnpc hr ((distLe_iff _ _ _).mpr hdist)

/-- A concrete character snapshot used to instantiate `C1`'s theorem. -/
def sampleCharacter : CharacterData :=
  { position_x := 0, position_y := 0, position_z := 0, name := "Alice", level := 1
    hp := 100, max_hp := 100, mp := 50, max_mp := 50, attack := 10, defense := 10
    speed := 5 }

theorem nearby_query_no_false_negatives_witness :
    PlayerEntity.init 1 sampleCharacter ∈
      (WorldState.init.applyOps [WorldOp.addPlayer 1 sampleCharacter]).get_nearby_players
        ⟨0, 0, 0⟩ 0 := by
  apply (nearby_query_no_false_negatives [WorldOp.addPlayer 1 sampleCharacter]
    ⟨0, 0, 0⟩ 0 le_rfl).1 1 (PlayerEntity.init 1 sampleCharacter) rfl
  show calculate_distance ⟨0, 0, 0⟩ (PlayerEntity.init 1 sampleCharacter).position ≤ ((0 : ℚ) : ℝ)
  have hpos : (PlayerEntity.init 1 sampleCharacter).position = ⟨0, 0, 0⟩ := rfl
  rw [hpos]
  unfold calculate_distance
  have hzero : distSq ⟨0, 0, 0⟩ ⟨0, 0, 0⟩ = 0 := by norm_num [distSq]
  rw [hzero]
  simp

/-! ### Damage formula (`shared/utils.py` `calculate_damage`) and
constants (`shared/constants.py`) -/

namespace DamageType

def PHYSICAL : ℕ := 0
def MAGICAL : ℕ := 1
def TRUE : ℕ := 2

end DamageType

def ATTACK_RANGE_MELEE : ℚ := 2
def ATTACK_RANGE_RANGED : ℚ := 15
def ATTACK_RANGE_MAGIC : ℚ := 20
def ATTACK_COOLDOWN : ℚ := 3 / 2
def MAX_LEVEL : ℤ := 150

/-- Source `shared/utils.py` `calculate_damage`. The attacker dict carries
`attack`/`level`, the defender dict `defense`/`level`; the random
`random.uniform(0.9, 1.1)` draw is the explicit `variance` argument. -/
def calculate_damage (attack attacker_level : ℚ) (defense defender_level : ℚ)
    (skill_multiplier : ℚ) (damage_type : ℕ) (variance : ℚ) : ℤ :=
  let base_damage := attack * skill_multiplier
  if damage_type = DamageType.TRUE then
    pyInt base_damage
  else
    let damage_reduction := defense / (defense + 100)
    let final_damage := base_damage * (1 - damage_reduction)
    let level_diff := attacker_level - defender_level
    let level_modifier := clamp (1 + level_diff * (2 / 100)) (1 / 2) (3 / 2)
    let final_damage := final_damage * level_modifier
    let final_damage := final_damage * variance
    max 1 (pyInt final_damage)

theorem calculate_damage_pos {attack al defense dl mult : ℚ} {dt : ℕ} {v : ℚ}
    (hdt : dt ≠ DamageType.TRUE) :
    1 ≤ calculate_damage attack al defense dl mult dt v := by
  unfold calculate_damage
  rw [if_neg hdt]
  exact le_max_left _ _

/-- C9: with the skill multiplier, levels, defense and the variance factor
fixed (defense and the multiplier and variance non-negative, as they are for
every game value), the damage formula is monotone non-decreasing in the
attack power; and with attack, levels, multiplier and variance fixed it is
monotone non-increasing in the defense, for non-true damage types. -/
theorem calculate_damage_monotone :
    (∀ (a1 a2 al defense dl mult : ℚ) (dt : ℕ) (v : ℚ),
      0 ≤ mult → 0 ≤ defense → 0 ≤ v → dt ≠ DamageType.TRUE → a1 ≤ a2 →
      calculate_damage a1 al defense dl mult dt v ≤
        calculate_damage a2 al defense dl mult dt v) ∧
    (∀ (attack al d1 d2 dl mult : ℚ) (dt : ℕ) (v : ℚ),
      0 ≤ attack → 0 ≤ mult → 0 ≤ d1 → 0 ≤ v → dt ≠ DamageType.TRUE → d1 ≤ d2 →
      calculate_damage attack al d2 dl mult dt v ≤
        calculate_damage attack al d1 dl mult dt v) := by
  have hclamp_nonneg : ∀ q : ℚ, 0 ≤ clamp q (1 / 2) (3 / 2) := by
    intro q
    unfold clamp
    have : (0:ℚ) ≤ 1 / 2 := by norm_num
    exact le_trans this (le_max_left _ _)
  constructor
  · intro a1 a2 al defense dl mult dt v hmult hdef hv hdt ha
    simp only [calculate_damage, if_neg hdt]
    apply max_le_max le_rfl
    apply pyInt_mono
    have hred : 0 ≤ 1 - defense / (defense + 100) := by
      have hpos : (0:ℚ) < defense + 100 := by linarith
      rw [sub_nonneg, div_le_one hpos]
      linarith
    have hbase : a1 * mult ≤ a2 * mult := mul_le_mul_of_nonneg_right ha hmult
    apply mul_le_mul_of_nonneg_right _ hv
    apply mul_le_mul_of_nonneg_right _ (hclamp_nonneg _)
    exact mul_le_mul_of_nonneg_right hbase hred
  · intro attack al d1 d2 dl mult dt v hatk hmult hd1 hv hdt hd
    simp only [calculate_damage, if_neg hdt]
    apply max_le_max le_rfl
    apply pyInt_mono
    have hred : 1 - d2 / (d2 + 100) ≤ 1 - d1 / (d1 + 100) := by
      have h1 : (0:ℚ) < d1 + 100 := by linarith
      have h2 : (0:ℚ) < d2 + 100 := by linarith
      rw [sub_le_sub_iff_left]
      rw [div_le_div_iff₀ h1 h2]
      nlinarith
    have hred2 : 0 ≤ 1 - d2 / (d2 + 100) := by
      have hpos : (0:ℚ) < d2 + 100 := by linarith
      rw [sub_nonneg, div_le_one hpos]
      linarith
    have hbase : 0 ≤ attack * mult := mul_nonneg hatk hmult
    apply mul_le_mul_of_nonneg_right _ hv
    apply mul_le_mul_of_nonneg_right _ (hclamp_nonneg _)
    calc attack * mult * (1 - d2 / (d2 + 100))
        ≤ attack * mult * (1 - d1 / (d1 + 100)) :=
          mul_le_mul_of_nonneg_left hred hbase

theorem calculate_damage_monotone_witness :
    ((0:ℚ) ≤ 1 ∧ (0:ℚ) ≤ 5 ∧ (0:ℚ) ≤ 1 ∧ (0 : ℕ) ≠ DamageType.TRUE ∧ (10:ℚ) ≤ 20 ∧
      calculate_damage 10 5 5 5 1 0 1 ≤ calculate_damage 20 5 5 5 1 0 1) ∧
    ((0:ℚ) ≤ 10 ∧ (0:ℚ) ≤ 5 ∧ (5:ℚ) ≤ 50 ∧
      calculate_damage 10 5 50 5 1 0 1 ≤ calculate_damage 10 5 5 5 1 0 1) := by
  refine ⟨⟨by norm_num, by norm_num, by norm_num, by decide, by norm_num, ?_⟩,
    by norm_num, by norm_num, by norm_num, ?_⟩
  · exact calculate_damage_monotone.1 10 20 5 5 5 1 0 1 (by norm_num) (by norm_num)
      (by norm_num) (by decide) (by norm_num)
  · exact calculate_damage_monotone.2 10 5 5 50 5 1 0 1 (by norm_num) (by norm_num)
      (by norm_num) (by norm_num) (by decide) (by norm_num)

/-! ### Skill database (`shared/game_data.py`) -/

namespace SkillType

def SLASH : ℕ := 0
def THRUST : ℕ := 1
def CLEAVE : ℕ := 2
def POWER_SHOT : ℕ := 10
def MULTI_SHOT : ℕ := 11
def SNIPE : ℕ := 12
def FIREBALL : ℕ := 20
def ICE_LANCE : ℕ := 21
def LIGHTNING_BOLT : ℕ := 22
def HEAL : ℕ := 23
def ULTIMATE_SLASH : ℕ := 30
def ULTIMATE_ARROW : ℕ := 31
def METEOR : ℕ := 32

end SkillType

/-- One `SKILL_DATABASE` entry. Keys that may be absent from a skill's dict
(`damage_multiplier`, `damage_type`, `heal_amount`, `aoe_radius`) are
`Option`s; `combat_system.py` reads them with `.get` defaults. Fields the
combat system never reads (`description`, `projectile_count`,
`slow_duration`, `piercing`) are not modelled. -/
structure SkillData where
  id : ℕ
  name : String
  damage_multiplier : Option ℚ
  mp_cost : ℤ
  cooldown : ℚ
  range : ℚ
  damage_type : Option ℕ
  required_level : ℤ
  heal_amount : Option ℤ
  aoe_radius : Option ℚ
  deriving DecidableEq, Repr

/-- Source `shared/game_data.py` `SKILL_DATABASE` / `get_skill_data`. -/
def get_skill_data : ℕ → Option SkillData
  | 0 => some
      { id := 0, name := "Slash", damage_multiplier := some (3/2), mp_cost := 10,
        cooldown := 3, range := ATTACK_RANGE_MELEE, damage_type := some DamageType.PHYSICAL,
        required_level := 1, heal_amount := none, aoe_radius := none }
  | 1 => some
      { id := 1, name := "Thrust", damage_multiplier := some 2, mp_cost := 15,
        cooldown := 4, range := ATTACK_RANGE_MELEE * (3/2),
        damage_type := some DamageType.PHYSICAL,
        required_level := 10, heal_amount := none, aoe_radius := none }
  | 2 => some
      { id := 2, name := "Cleave", damage_multiplier := some (9/5), mp_cost := 25,
        cooldown := 6, range := ATTACK_RANGE_MELEE, damage_type := some DamageType.PHYSICAL,
        required_level := 20, heal_amount := none, aoe_radius := some 3 }
  | 10 => some
      { id := 10, name := "Power Shot", damage_multiplier := some (11/5),
        mp_cost := 12, cooldown := 7/2, range := ATTACK_RANGE_RANGED,
        damage_type := some DamageType.PHYSICAL,
        required_level := 1, heal_amount := none, aoe_radius := none }
  | 11 => some
      { id := 11, name := "Multi Shot", damage_multiplier := some (6/5),
        mp_cost := 20, cooldown := 5, range := ATTACK_RANGE_RANGED,
        damage_type := some DamageType.PHYSICAL,
        required_level := 15, heal_amount := none, aoe_radius := none }
  | 12 => some
      { id := 12, name := "Snipe", damage_multiplier := some 3, mp_cost := 30,
        cooldown := 8, range := ATTACK_RANGE_RANGED * 2,
        damage_type := some DamageType.PHYSICAL,
        required_level := 30, heal_amount := none, aoe_radius := none }
  | 20 => some
      { id := 20, name := "Fireball", damage_multiplier := some (5/2),
        mp_cost := 20, cooldown := 4, range := ATTACK_RANGE_MAGIC,
        damage_type := some DamageType.MAGICAL,
        required_level := 1, heal_amount := none, aoe_radius := none }
  | 21 => some
      { id := 21, name := "Ice Lance", damage_multiplier := some 2, mp_cost := 18,
        cooldown := 9/2, range := ATTACK_RANGE_MAGIC, damage_type := some DamageType.MAGICAL,
        required_level := 8, heal_amount := none, aoe_radius := none }
  | 22 => some
      { id := 22, name := "Lightning Bolt", damage_multiplier := some (14/5),
        mp_cost := 25, cooldown := 5, range := ATTACK_RANGE_MAGIC * (6/5),
        damage_type := some DamageType.MAGICAL,
        required_level := 18, heal_amount := none, aoe_radius := none }
  | 23 => some
      { id := 23, name := "Heal", damage_multiplier := none, mp_cost := 30,
        cooldown := 10, range := ATTACK_RANGE_MAGIC, damage_type := none,
        required_level := 12, heal_amount := some 100, aoe_radius := none }
  | 30 => some
      { id := 30, name := "Ultimate Slash", damage_multiplier := some 5,
        mp_cost := 50, cooldown := 30, range := ATTACK_RANGE_MELEE,
        damage_type := some DamageType.TRUE,
        required_level := 50, heal_amount := none, aoe_radius := none }
  | 31 => some
      { id := 31, name := "Ultimate Arrow", damage_multiplier := some (9/2),
        mp_cost := 50, cooldown := 30, range := ATTACK_RANGE_RANGED * (3/2),
        damage_type := some DamageType.TRUE,
        required_level := 50, heal_amount := none, aoe_radius := none }
  | 32 => some
      { id := 32, name := "Meteor", damage_multiplier := some 6, mp_cost := 60,
        cooldown := 40, range := ATTACK_RANGE_MAGIC, damage_type := some DamageType.MAGICAL,
        required_level := 60, heal_amount := none, aoe_radius := some 10 }
  | _ => none

/-! ### Combat system (`server/game_server/combat_system.py`) -/

/-- CombatSystem state: the shared world plus
`active_cooldowns: {character_id: {skill_id: end_time}}`. -/
structure CombatState where
  world : WorldState
  active_cooldowns : ℕ → Option (ℕ → Option ℚ)

/-- Source `CombatSystem._check_skill_cooldown`: a missing character entry
means no cooldown; otherwise compare against `get(skill_id, 0)`. -/
def checkSkillCooldown (st : CombatState) (character_id skill_id : ℕ)
    (current_time : ℚ) : Bool :=
  match st.active_cooldowns character_id with
  | none => true
  | some cds => decide ((cds skill_id).getD 0 ≤ current_time)

/-- Source `CombatSystem._set_skill_cooldown`. -/
def setSkillCooldown (st : CombatState) (character_id skill_id : ℕ)
    (current_time cooldown : ℚ) : CombatState :=
  let char_cds := (st.active_cooldowns character_id).getD (fun _ => none)
  { st with active_cooldowns := fun c =>
      if c = character_id then
        some (fun sk => if sk = skill_id then some (current_time + cooldown) else char_cds sk)
      else st.active_cooldowns c }

/-- Result dict of `CombatSystem.basic_attack`. -/
structure AttackResult where
  attacker_id : ℕ
  target_id : ℕ
  target_type : String
  damage : ℤ
  target_hp : ℤ
  target_died : Bool
  deriving DecidableEq, Repr

/-- Replace one player entry in the world. -/
def WorldState.setPlayer (w : WorldState) (character_id : ℕ) (p : PlayerEntity) :
    WorldState :=
  { w with players := fun i => if i = character_id then some p else w.players i }

/-- Replace one NPC entry in the world. -/
def WorldState.setNpc (w : WorldState) (instance_id : ℕ) (n : NPCEntity) : WorldState :=
  { w with npcs := fun i => if i = instance_id then some n else w.npcs i }

/-- Stamp `last_attack_time` on the attacker (looked up again, mirroring that
Python mutates the shared object even if attacker and target coincide). -/
def WorldState.stampAttackTime (w : WorldState) (attacker_id : ℕ) (t : ℚ) : WorldState :=
  { w with players := fun i =>
      if i = attacker_id then (w.players i).map fun a => { a with last_attack_time := t }
      else w.players i }

/-- Source `CombatSystem.basic_attack`. `current_time` stands for
`time.time()` and `variance` for the `random.uniform(0.9, 1.1)` draw inside
`calculate_damage`. -/
def basic_attack (st : CombatState) (attacker_id target_id : ℕ) (target_type : String)
    (current_time variance : ℚ) : Option AttackResult × CombatState :=
  match st.world.players attacker_id with
  | none => (none, st)
  | some attacker =>
    if attacker.is_dead then (none, st)
    else if ¬ attacker.can_attack current_time ATTACK_COOLDOWN then (none, st)
    else if target_type = "player" then
      match st.world.players target_id with
      | none => (none, st)
      | some target =>
        if ¬ distLe attacker.position target.position ATTACK_RANGE_MELEE then (none, st)
        else
          let damage := calculate_damage attacker.attack attacker.level
            target.defense target.level 1 DamageType.PHYSICAL variance
          let (target', target_died) := target.apply_damage damage
          let world1 := (st.world.setPlayer target_id target').stampAttackTime
            attacker_id current_time
          (some { attacker_id := attacker_id, target_id := target_id
                  target_type := target_type, damage := damage
                  target_hp := target'.hp, target_died := target_died },
           { st with world := world1 })
    else if target_type = "npc" then
      match st.world.npcs target_id with
      | none => (none, st)
      | some target =>
        if ¬ distLe attacker.position target.position ATTACK_RANGE_MELEE then (none, st)
        else
          let damage := calculate_damage attacker.attack attacker.level
            target.defense target.level 1 DamageType.PHYSICAL variance
          let (target', target_died) := target.apply_damage damage
          let world1 := (st.world.setNpc target_id target').stampAttackTime
            attacker_id current_time
          (some { attacker_id := attacker_id, target_id := target_id
                  target_type := target_type, damage := damage
                  target_hp := target'.hp, target_died := target_died },
           { st with world := world1 })
    else (none, st)

/-- Result dict of `CombatSystem.use_skill`: the healing path and the
damage path return different dict shapes.  A `targets_hit` element is
`(target_id, damage, hp_after, died)`. -/
inductive SkillResult where
  | heal (caster_id skill_id : ℕ) (heal_amount : ℤ) (caster_hp : ℤ)
  | damage (caster_id skill_id : ℕ) (skill_name : String)
      (targets_hit : List (ℕ × ℤ × ℤ × Bool)) (caster_mp : ℤ)
  deriving DecidableEq, Repr

/-- Loop body of the AoE block in `use_skill`: 70% of the primary damage to
every nearby NPC other than the primary target. -/
def applyAoe (w : WorldState) (hits : List (ℕ × ℤ × ℤ × Bool)) (nearby : List NPCEntity)
    (primary_target_id : ℕ) (damage : ℤ) : WorldState × List (ℕ × ℤ × ℤ × Bool) :=
  nearby.foldl (fun acc npc =>
    if npc.instance_id ≠ primary_target_id then
      let aoe_damage := pyInt ((damage : ℚ) * (7/10))
      match acc.1.npcs npc.instance_id with
      | some cur =>
        let hit := cur.apply_damage aoe_damage
        (acc.1.setNpc npc.instance_id hit.1,
         acc.2 ++ [(npc.instance_id, aoe_damage, hit.1.hp, hit.2)])
      | none => acc
    else acc) (w, hits)

/-- Source `CombatSystem.use_skill`.  Mirrors the source's order of checks:
the MP deduction and cooldown stamping happen before the heal short-circuit
and before target resolution and the range check. -/
def use_skill (st : CombatState) (caster_id skill_id : ℕ) (target_id : Option ℕ)
    (target_type : String) (current_time variance : ℚ) :
    Option SkillResult × CombatState :=
  match st.world.players caster_id with
  | none => (none, st)
  | some caster =>
    if caster.is_dead then (none, st)
    else match get_skill_data skill_id with
    | none => (none, st)
    | some skill_data =>
      let mp_cost := skill_data.mp_cost
      if caster.mp < mp_cost then (none, st)
      else if ¬ checkSkillCooldown st caster_id skill_id current_time then (none, st)
      else if caster.level < skill_data.required_level then (none, st)
      else
        let caster1 := { caster with mp := caster.mp - mp_cost }
        let st1 := { st with world := st.world.setPlayer caster_id caster1 }
        let st2 := setSkillCooldown st1 caster_id skill_id current_time skill_data.cooldown
        if skill_id = SkillType.HEAL then
          let heal_amount := (skill_data.heal_amount).getD 100
          let caster2 := caster1.heal heal_amount
          let st3 := { st2 with world := st2.world.setPlayer caster_id caster2 }
          (some (.heal caster_id skill_id heal_amount caster2.hp), st3)
        else match target_id with
        | none => (none, st2)
        | some tid =>
          if target_type = "player" then
            match st2.world.players tid with
            | none => (none, st2)
            | some target =>
              if ¬ distLe caster1.position target.position skill_data.range then (none, st2)
              else
                let damage_multiplier := (skill_data.damage_multiplier).getD 1
                let damage_type := (skill_data.damage_type).getD DamageType.PHYSICAL
                let damage := calculate_damage caster1.attack caster1.level
                  target.defense target.level damage_multiplier damage_type variance
                let hit := target.apply_damage damage
                let world3 := st2.world.setPlayer tid hit.1
                let targets0 := [(tid, damage, hit.1.hp, hit.2)]
                let aoe_radius := (skill_data.aoe_radius).getD 0
                let final :=
                  if 0 < aoe_radius then
                    applyAoe world3 targets0 (world3.get_nearby_npcs hit.1.position aoe_radius)
                      tid damage
                  else (world3, targets0)
                (some (.damage caster_id skill_id skill_data.name final.2 caster1.mp),
                 { st2 with world := final.1 })
          else if target_type = "npc" then
            match st2.world.npcs tid with
            | none => (none, st2)
            | some target =>
              if ¬ distLe caster1.position target.position skill_data.range then (none, st2)
              else
                let damage_multiplier := (skill_data.damage_multiplier).getD 1
                let damage_type := (skill_data.damage_type).getD DamageType.PHYSICAL
                let damage := calculate_damage caster1.attack caster1.level
                  target.defense target.level damage_multiplier damage_type variance
                let hit := target.apply_damage damage
                let world3 := st2.world.setNpc tid hit.1
                let targets0 := [(tid, damage, hit.1.hp, hit.2)]
                let aoe_radius := (skill_data.aoe_radius).getD 0
                let final :=
                  if 0 < aoe_radius then
                    applyAoe world3 targets0 (world3.get_nearby_npcs hit.1.position aoe_radius)
                      tid damage
                  else (world3, targets0)
                (some (.damage caster_id skill_id skill_data.name final.2 caster1.mp),
                 { st2 with world := final.1 })
          else (none, st2)

/-- Source `CombatSystem.respawn_player`: clears the dead flag, restores
hp/mp to their maxima, relocates to the spawn position. -/
def respawn_player (st : CombatState) (character_id : ℕ) (spawn_position : Position) :
    Bool × CombatState :=
  match st.world.players character_id with
  | none => (false, st)
  | some player =>
    let player' := { player with is_dead := false, hp := player.max_hp, mp := player.max_mp }
    let world1 := st.world.setPlayer character_id player'
    let world2 := world1.update_player_position character_id
      spawn_position.x spawn_position.y spawn_position.z 0
    (true, { st with world := world2 })

theorem PlayerEntity.player_apply_damage_spec (p : PlayerEntity) (d : ℤ) :
    (p.apply_damage d).1.hp = max 0 (p.hp - d) ∧
      ((p.apply_damage d).2 = true ↔ (p.apply_damage d).1.hp = 0) := by
  simp only [PlayerEntity.apply_damage]
  split_ifs with h <;> simp [h]

theorem NPCEntity.npc_apply_damage_spec (n : NPCEntity) (d : ℤ) :
    (n.apply_damage d).1.hp = max 0 (n.hp - d) ∧
      ((n.apply_damage d).2 = true ↔ (n.apply_damage d).1.hp = 0) := by
  simp only [NPCEntity.apply_damage]
  simp

/-- C5: whenever `basic_attack` returns a result, the target's resulting hp
is the old hp minus the damage clamped at 0 — never negative, and exactly 0
when the damage meets or exceeds the remaining hp — and the returned
`target_died` flag is true if and only if the resulting hp is 0. -/
theorem basic_attack_hp_clamped (st : CombatState) (attacker_id target_id : ℕ)
    (target_type : String) (t v : ℚ) (res : AttackResult) (st' : CombatState)
    (h : basic_attack st attacker_id target_id target_type t v = (some res, st')) :
    0 ≤ res.target_hp ∧ (res.target_died = true ↔ res.target_hp = 0) ∧
    (target_type = "player" → ∀ tgt, st.world.players target_id = some tgt →
      res.target_hp = max 0 (tgt.hp - res.damage)) ∧
    (target_type = "npc" → ∀ tgt, st.world.npcs target_id = some tgt →
      res.target_hp = max 0 (tgt.hp - res.damage)) := by
  unfold basic_attack at h
  repeat' split at h
  all_goals try (have hcontra := congrArg Prod.fst h; simp at hcontra)
  · -- player-target branch
    rename_i xa attacker hattacker hdead hcan htype xt target hlook hdist
    have h1 := congrArg Prod.fst h
    simp at h1
    subst h1
    obtain ⟨hhp, hdied⟩ := PlayerEntity.player_apply_damage_spec target
      (calculate_damage attacker.attack attacker.level target.defense target.level 1
        DamageType.PHYSICAL v)
    refine ⟨?_, ?_, ?_, ?_⟩
    · simp only [hhp]
      exact le_max_left _ _
    · simpa using hdied
    · intro _ tgt htgt
      rw [hlook] at htgt
      injection htgt with h3
      subst h3
      simpa using hhp
    · intro hnpcty
      rw [htype] at hnpcty
      exact absurd hnpcty (by decide)
  · -- npc-target branch
    rename_i xa attacker hattacker hdead hcan hnotply htype xt target hlook hdist
    have h1 := congrArg Prod.fst h
    simp at h1
    subst h1
    obtain ⟨hhp, hdied⟩ := NPCEntity.npc_apply_damage_spec target
      (calculate_damage attacker.attack attacker.level target.defense target.level 1
        DamageType.PHYSICAL v)
    refine ⟨?_, ?_, ?_, ?_⟩
    · simp only [hhp]
      exact le_max_left _ _
    · simpa using hdied
    · intro hplyty
      rw [htype] at hplyty
      exact absurd hplyty (by decide)
    · intro _ tgt htgt
      rw [hlook] at htgt
      injection htgt with h3
      subst h3
      simpa using hhp

/-- A concrete NPC template used to instantiate combat theorems. -/
def sampleNpc : NpcData :=
  { npc_id := 7, name := "Rat", npc_type := 0, level := 1, hp := 50, attack := 5,
    defense := 5, xp_reward := 10, aggro_range := 5 }

/-- A concrete combat state: player 1 and NPC instance 1, both at the origin. -/
def combatW : CombatState :=
  { world := (WorldState.init.add_player 1 sampleCharacter).spawn_npc sampleNpc ⟨0, 0, 0⟩
    active_cooldowns := fun _ => none }

/-- The result of a concrete successful basic attack: player 1 (attack 10,
level 1) hits NPC 1 (defense 5, hp 50) for 9 damage. -/
def resW : AttackResult :=
  { attacker_id := 1, target_id := 1, target_type := "npc", damage := 9,
    target_hp := 41, target_died := false }

theorem basic_attack_hp_clamped_witness :
    0 ≤ resW.target_hp ∧ (resW.target_died = true ↔ resW.target_hp = 0) ∧
    (("npc" : String) = "player" → ∀ tgt, combatW.world.players 1 = some tgt →
      resW.target_hp = max 0 (tgt.hp - resW.damage)) ∧
    (("npc" : String) = "npc" → ∀ tgt, combatW.world.npcs 1 = some tgt →
      resW.target_hp = max 0 (tgt.hp - resW.damage)) :=
  basic_attack_hp_clamped combatW 1 1 "npc" 10 1 resW
    (basic_attack combatW 1 1 "npc" 10 1).2
    (Prod.ext
      (by
        show (basic_attack combatW 1 1 "npc" 10 1).1 = some resW
        simp [basic_attack, combatW, WorldState.spawn_npc, WorldState.add_player,
          WorldState.init, PlayerEntity.init, NPCEntity.init, PlayerEntity.can_attack,
          PlayerEntity.apply_damage, NPCEntity.apply_damage, WorldState.setNpc,
          WorldState.stampAttackTime, distLe, distSq, calculate_damage, clamp, pyInt,
          ATTACK_COOLDOWN, ATTACK_RANGE_MELEE, DamageType.PHYSICAL, DamageType.TRUE,
          CHUNK_SIZE, sampleCharacter, sampleNpc, resW]
        norm_num)
      rfl)

/-- The `use_skill` validation failures that are checked before the MP
deduction and cooldown stamping: caster missing or dead, unknown skill,
insufficient MP, active cooldown, or insufficient level. -/
def useSkillEarlyReject (st : CombatState) (caster_id skill_id : ℕ) (t : ℚ) : Prop :=
  match st.world.players caster_id with
  | none => True
  | some caster =>
    caster.is_dead = true ∨
    match get_skill_data skill_id with
    | none => True
    | some sd =>
      caster.mp < sd.mp_cost ∨ checkSkillCooldown st caster_id skill_id t = false ∨
        caster.level < sd.required_level

/-- Source view of the target-stage rejections of `use_skill` (the checks that
run after the MP deduction and cooldown stamp): missing target id, unknown
target type, target not found in the (already caster-updated) world, or
target beyond the skill's range. -/
def useSkillLateReject (st : CombatState) (caster_id : ℕ) (caster1 : PlayerEntity)
    (sd : SkillData) : Option ℕ → String → Prop
  | none, _ => True
  | some tid, target_type =>
    if target_type = "player" then
      match (st.world.setPlayer caster_id caster1).players tid with
      | none => True
      | some target => distLe caster1.position target.position sd.range = false
    else if target_type = "npc" then
      match (st.world.setPlayer caster_id caster1).npcs tid with
      | none => True
      | some target => distLe caster1.position target.position sd.range = false
    else True

/-- C3 (amended): every validation failure makes `use_skill` return `none`,
but only the failures checked before the MP deduction leave the caster's
state untouched; when all early checks pass, the skill is not the heal
skill, and any of the late target checks fails (missing target id, unknown
target type, target not found, or target out of range), `use_skill` still
returns `none` yet the caster's MP is already reduced by the skill's cost
and the per-caster per-skill cooldown entry is already set. -/
theorem use_skill_rejection_semantics :
    (∀ (st : CombatState) (caster_id skill_id : ℕ) (target_id : Option ℕ)
      (target_type : String) (t v : ℚ),
      useSkillEarlyReject st caster_id skill_id t →
      use_skill st caster_id skill_id target_id target_type t v = (none, st)) ∧
    (∀ (st : CombatState) (caster_id skill_id : ℕ) (target_id : Option ℕ)
      (target_type : String) (t v : ℚ) (caster : PlayerEntity) (sd : SkillData),
      st.world.players caster_id = some caster → caster.is_dead = false →
      get_skill_data skill_id = some sd → sd.mp_cost ≤ caster.mp →
      checkSkillCooldown st caster_id skill_id t = true →
      sd.required_level ≤ caster.level → skill_id ≠ SkillType.HEAL →
      useSkillLateReject st caster_id { caster with mp := caster.mp - sd.mp_cost } sd
        target_id target_type →
      (use_skill st caster_id skill_id target_id target_type t v).1 = none ∧
      ((use_skill st caster_id skill_id target_id target_type t v).2.world.players
        caster_id).map PlayerEntity.mp = some (caster.mp - sd.mp_cost) ∧
      ((use_skill st caster_id skill_id target_id target_type t v).2.active_cooldowns
        caster_id).map (fun cds => cds skill_id) = some (some (t + sd.cooldown))) := by
  constructor
  · intro st caster_id skill_id target_id target_type t v hrej
    unfold useSkillEarlyReject at hrej
    unfold use_skill
    split
    · rfl
    · rename_i caster hc
      simp only [hc] at hrej
      by_cases hdead : caster.is_dead = true
      · rw [if_pos hdead]
      · rw [if_neg hdead]
        rcases hrej with hrej | hrej
        · exact absurd hrej hdead
        split
        · rfl
        · rename_i sd hs
          simp only [hs] at hrej
          rcases hrej with hmp | hcd | hlvl
          · rw [if_pos hmp]
          · have hncd : ¬ checkSkillCooldown st caster_id skill_id t = true := by
              rw [hcd]; simp
            by_cases hmp' : caster.mp < sd.mp_cost
            · rw [if_pos hmp']
            · rw [if_neg hmp', if_pos hncd]
          · by_cases hmp' : caster.mp < sd.mp_cost
            · rw [if_pos hmp']
            · rw [if_neg hmp']
              by_cases hcd' : ¬ checkSkillCooldown st caster_id skill_id t = true
              · rw [if_pos hcd']
              · rw [if_neg hcd', if_pos hlvl]
  · intro st caster_id skill_id target_id target_type t v caster sd hc hdead hs hmp hcd
      hlvl hheal hlate
    rcases target_id with _ | tid
    · refine ⟨?_, ?_, ?_⟩ <;>
        simp [use_skill, hc, hs, hdead, hcd, hheal, not_lt.mpr hmp, not_lt.mpr hlvl,
          setSkillCooldown, WorldState.setPlayer]
    · simp only [useSkillLateReject] at hlate
      by_cases hpt : target_type = "player"
      · rw [if_pos hpt] at hlate
        rcases hfind : (st.world.setPlayer caster_id
            { caster with mp := caster.mp - sd.mp_cost }).players tid with _ | target
        · rw [hfind] at hlate
          rw [hdead] at hfind
          refine ⟨?_, ?_, ?_⟩ <;>
            (simp [use_skill, hc, hs, hdead, hcd, hheal, not_lt.mpr hmp, not_lt.mpr hlvl,
              hpt, hfind, setSkillCooldown]
             try exact ⟨{ caster with mp := caster.mp - sd.mp_cost, is_dead := false },
               by simp [WorldState.setPlayer], rfl⟩)
        · rw [hfind] at hlate
          rw [hdead] at hfind
          refine ⟨?_, ?_, ?_⟩ <;>
            (simp [use_skill, hc, hs, hdead, hcd, hheal, not_lt.mpr hmp, not_lt.mpr hlvl,
              hpt, hfind, hlate, setSkillCooldown]
             try exact ⟨{ caster with mp := caster.mp - sd.mp_cost, is_dead := false },
               by simp [WorldState.setPlayer], rfl⟩)
      · by_cases hnt : target_type = "npc"
        · rw [if_neg hpt, if_pos hnt] at hlate
          rcases hfind : (st.world.setPlayer caster_id
              { caster with mp := caster.mp - sd.mp_cost }).npcs tid with _ | target
          · rw [hfind] at hlate
            rw [hdead] at hfind
            refine ⟨?_, ?_, ?_⟩ <;>
              (simp [use_skill, hc, hs, hdead, hcd, hheal, not_lt.mpr hmp, not_lt.mpr hlvl,
                hpt, hnt, hfind, setSkillCooldown]
               try exact ⟨{ caster with mp := caster.mp - sd.mp_cost, is_dead := false },
                 by simp [WorldState.setPlayer], rfl⟩)
          · rw [hfind] at hlate
            rw [hdead] at hfind
            refine ⟨?_, ?_, ?_⟩ <;>
              (simp [use_skill, hc, hs, hdead, hcd, hheal, not_lt.mpr hmp, not_lt.mpr hlvl,
                hpt, hnt, hfind, hlate, setSkillCooldown]
               try exact ⟨{ caster with mp := caster.mp - sd.mp_cost, is_dead := false },
                 by simp [WorldState.setPlayer], rfl⟩)
        · refine ⟨?_, ?_, ?_⟩ <;>
            simp [use_skill, hc, hs, hdead, hcd, hheal, not_lt.mpr hmp, not_lt.mpr hlvl,
              hpt, hnt, setSkillCooldown, WorldState.setPlayer]

/-- C3 counterexample to the claim as stated: with player 1 (mp 50, alive)
in `combatW`, using skill 0 (Slash, mp cost 10) with no target returns
`none`, yet the caster's MP afterwards is 40, not the 50 it was before the
call, and a cooldown entry for the skill has been created. -/
theorem use_skill_nil_but_state_changed :
    (use_skill combatW 1 0 none "npc" 10 1).1 = none ∧
    ((use_skill combatW 1 0 none "npc" 10 1).2.world.players 1).map PlayerEntity.mp =
      some 40 ∧
    (combatW.world.players 1).map PlayerEntity.mp = some 50 ∧
    ((use_skill combatW 1 0 none "npc" 10 1).2.active_cooldowns 1).isSome = true ∧
    combatW.active_cooldowns 1 = none := by
  refine ⟨?_, ?_, rfl, ?_, rfl⟩
  · simp [use_skill, combatW, WorldState.spawn_npc, WorldState.add_player, WorldState.init,
      PlayerEntity.init, NPCEntity.init, sampleCharacter, sampleNpc, get_skill_data,
      checkSkillCooldown, setSkillCooldown, WorldState.setPlayer, SkillType.HEAL]
  · simp [use_skill, combatW, WorldState.spawn_npc, WorldState.add_player, WorldState.init,
      PlayerEntity.init, NPCEntity.init, sampleCharacter, sampleNpc, get_skill_data,
      checkSkillCooldown, setSkillCooldown, WorldState.setPlayer, SkillType.HEAL]
  · simp [use_skill, combatW, WorldState.spawn_npc, WorldState.add_player, WorldState.init,
      PlayerEntity.init, NPCEntity.init, sampleCharacter, sampleNpc, get_skill_data,
      checkSkillCooldown, setSkillCooldown, WorldState.setPlayer, SkillType.HEAL]

theorem use_skill_rejection_semantics_witness :
    (use_skill combatW 1 0 none "npc" 10 1).1 = none ∧
    ((use_skill combatW 1 0 none "npc" 10 1).2.world.players 1).map PlayerEntity.mp =
      some (50 - 10) ∧
    ((use_skill combatW 1 0 none "npc" 10 1).2.active_cooldowns 1).map
      (fun cds => cds 0) = some (some (10 + 3)) :=
  use_skill_rejection_semantics.2 combatW 1 0 none "npc" 10 1
    (PlayerEntity.init 1 sampleCharacter)
    { id := 0, name := "Slash", damage_multiplier := some (3/2), mp_cost := 10,
      cooldown := 3, range := ATTACK_RANGE_MELEE, damage_type := some DamageType.PHYSICAL,
      required_level := 1, heal_amount := none, aoe_radius := none }
    rfl rfl rfl (by norm_num [PlayerEntity.init, sampleCharacter]) rfl
    (by norm_num [PlayerEntity.init, sampleCharacter]) (by decide) trivial

theorem get_skill_data_nonneg (skill_id : ℕ) (sd : SkillData)
    (h : get_skill_data skill_id = some sd) :
    0 ≤ sd.mp_cost ∧ 0 ≤ (sd.damage_multiplier).getD 1 ∧ 0 ≤ (sd.heal_amount).getD 100 := by
  unfold get_skill_data at h
  split at h <;>
    first
      | (injection h with h
         subst h
         refine ⟨by norm_num, by norm_num, by norm_num⟩)
      | cases h

/-- The AoE loop only touches NPCs, never the player map. -/
theorem applyAoe_players (nearby : List NPCEntity) (w : WorldState)
    (hits : List (ℕ × ℤ × ℤ × Bool)) (tid : ℕ) (dmg : ℤ) :
    (applyAoe w hits nearby tid dmg).1.players = w.players := by
  induction nearby generalizing w hits with
  | nil => rfl
  | cons npc rest ih =>
    unfold applyAoe
    rw [List.foldl_cons]
    unfold applyAoe at ih
    have hstep : ∀ acc : WorldState × List (ℕ × ℤ × ℤ × Bool),
        ((if npc.instance_id ≠ tid then
            match acc.1.npcs npc.instance_id with
            | some cur =>
              let hit := cur.apply_damage (pyInt ((dmg : ℚ) * (7/10)))
              (acc.1.setNpc npc.instance_id hit.1,
               acc.2 ++ [(npc.instance_id, pyInt ((dmg : ℚ) * (7/10)), hit.1.hp, hit.2)])
            | none => acc
          else acc) : WorldState × List (ℕ × ℤ × ℤ × Bool)).1.players = acc.1.players := by
      intro acc
      split
      · split
        · rfl
        · rfl
      · rfl
    rw [ih]
    exact hstep (w, hits)

theorem damage_nonneg {attack al defense dl mult : ℚ} {dt : ℕ} {v : ℚ}
    (hatk : 0 ≤ attack) (hmult : 0 ≤ mult) :
    0 ≤ calculate_damage attack al defense dl mult dt v := by
  unfold calculate_damage
  split_ifs with h
  · exact pyInt_nonneg (mul_nonneg hatk hmult)
  · exact le_trans (by norm_num) (le_max_left 1 _)

/-- Resource bounds for a player entity: `0 <= hp <= max_hp` and
`0 <= mp <= max_mp`. -/
def PlayerEntity.inBounds (p : PlayerEntity) : Prop :=
  0 ≤ p.hp ∧ p.hp ≤ p.max_hp ∧ 0 ≤ p.mp ∧ p.mp ≤ p.max_mp

theorem apply_damage_inBounds {p : PlayerEntity} {d : ℤ} (hb : p.inBounds) (hd : 0 ≤ d) :
    (p.apply_damage d).1.inBounds := by
  obtain ⟨h1, h2, h3, h4⟩ := hb
  simp only [PlayerEntity.apply_damage]
  split_ifs with h <;>
    exact ⟨le_max_left _ _, by simp only []; omega, h3, h4⟩

theorem heal_inBounds {p : PlayerEntity} {a : ℤ} (hb : p.inBounds) (ha : 0 ≤ a) :
    (p.heal a).inBounds := by
  obtain ⟨h1, h2, h3, h4⟩ := hb
  unfold PlayerEntity.heal
  exact ⟨by simp only []; omega, by simp only []; omega, h3, h4⟩

theorem restore_mp_inBounds {p : PlayerEntity} {a : ℤ} (hb : p.inBounds) (ha : 0 ≤ a) :
    (p.restore_mp a).inBounds := by
  obtain ⟨h1, h2, h3, h4⟩ := hb
  unfold PlayerEntity.restore_mp
  exact ⟨h1, h2, by simp only []; omega, by simp only []; omega⟩

theorem mp_deduct_inBounds {p : PlayerEntity} {cost : ℤ} (hb : p.inBounds)
    (hcost : 0 ≤ cost) (hle : cost ≤ p.mp) :
    ({ p with mp := p.mp - cost } : PlayerEntity).inBounds := by
  obtain ⟨h1, h2, h3, h4⟩ := hb
  exact ⟨h1, h2, by simp only []; omega, by simp only []; omega⟩

set_option maxHeartbeats 2000000 in
theorem use_skill_caster_bounds (st : CombatState) (caster_id skill_id : ℕ)
    (target_id : Option ℕ) (target_type : String) (t v : ℚ) (caster : PlayerEntity)
    (hc : st.world.players caster_id = some caster) (hb : caster.inBounds)
    (hatk : 0 ≤ caster.attack) (pl' : PlayerEntity)
    (hpl' : (use_skill st caster_id skill_id target_id target_type t v).2.world.players
      caster_id = some pl') : pl'.inBounds := by
  rcases hu : use_skill st caster_id skill_id target_id target_type t v with ⟨r, st2⟩
  rw [hu] at hpl'
  unfold use_skill at hu
  repeat' split at hu
  all_goals (rw [Prod.mk.injEq] at hu; obtain ⟨hu1, hu2⟩ := hu; subst hu2; clear hu1)
  all_goals try
    (dsimp only at hpl'
     rw [hc] at hpl'
     injection hpl' with e
     subst e
     exact hb)
  · -- cooldown rejected after the residual MP check (both arms return st)
    rw [ite_self] at hpl'
    dsimp only at hpl'
    rw [hc] at hpl'
    injection hpl' with e
    subst e
    exact hb
  · -- level rejected after the residual MP check
    rw [ite_self] at hpl'
    dsimp only at hpl'
    rw [hc] at hpl'
    injection hpl' with e
    subst e
    exact hb
  · -- heal path
    rename_i x1 player heqp hdead x2 sd heqsd hcd hlvl hheal
    rw [hc] at heqp
    injection heqp with ep
    subst ep
    obtain ⟨hcost, hmult, hamount⟩ := get_skill_data_nonneg skill_id sd heqsd
    by_cases hmp : caster.mp < sd.mp_cost
    · rw [if_pos hmp] at hpl'
      dsimp only at hpl'
      rw [hc] at hpl'
      injection hpl' with e
      subst e
      exact hb
    · rw [if_neg hmp] at hpl'
      simp only [setSkillCooldown, WorldState.setPlayer, eq_self_iff_true, if_true,
        Option.some.injEq] at hpl'
      subst hpl'
      exact heal_inBounds (mp_deduct_inBounds hb hcost (not_lt.mp hmp)) hamount
  · -- damage path, missing target id
    rename_i x1 player heqp hdead x2 sd heqsd hcd hlvl hheal tid0
    rw [hc] at heqp
    injection heqp with ep
    subst ep
    obtain ⟨hcost, hmult, hamount⟩ := get_skill_data_nonneg skill_id sd heqsd
    by_cases hmp : caster.mp < sd.mp_cost
    · rw [if_pos hmp] at hpl'
      dsimp only at hpl'
      rw [hc] at hpl'
      injection hpl' with e
      subst e
      exact hb
    · rw [if_neg hmp] at hpl'
      simp only [setSkillCooldown, WorldState.setPlayer, eq_self_iff_true, if_true,
        Option.some.injEq] at hpl'
      subst hpl'
      exact mp_deduct_inBounds hb hcost (not_lt.mp hmp)
  · -- damage path, player target
    rename_i x1 player heqp hdead x2 sd heqsd hcd hlvl hheal tid0 tid htype
    rw [hc] at heqp
    injection heqp with ep
    subst ep
    obtain ⟨hcost, hmult, hamount⟩ := get_skill_data_nonneg skill_id sd heqsd
    by_cases hmp : caster.mp < sd.mp_cost
    · rw [if_pos hmp] at hpl'
      dsimp only at hpl'
      rw [hc] at hpl'
      injection hpl' with e
      subst e
      exact hb
    · rw [if_neg hmp] at hpl'
      have hc1b : ({ caster with mp := caster.mp - sd.mp_cost } : PlayerEntity).inBounds :=
        mp_deduct_inBounds hb hcost (not_lt.mp hmp)
      by_cases htid : tid = caster_id
      · subst htid
        simp only [setSkillCooldown, WorldState.setPlayer, eq_self_iff_true, if_true] at hpl'
        by_cases hdist : ¬ distLe caster.position caster.position sd.range = true
        · rw [if_pos hdist] at hpl'
          simp only [eq_self_iff_true, if_true, Option.some.injEq] at hpl'
          subst hpl'
          exact hc1b
        · rw [if_neg hdist] at hpl'
          by_cases haoe : 0 < sd.aoe_radius.getD 0
          · rw [if_pos haoe] at hpl'
            rw [applyAoe_players] at hpl'
            simp only [eq_self_iff_true, if_true, Option.some.injEq] at hpl'
            subst hpl'
            exact apply_damage_inBounds hc1b
              (damage_nonneg (by exact_mod_cast hatk) hmult)
          · rw [if_neg haoe] at hpl'
            simp only [eq_self_iff_true, if_true, Option.some.injEq] at hpl'
            subst hpl'
            exact apply_damage_inBounds hc1b
              (damage_nonneg (by exact_mod_cast hatk) hmult)
      · have htid2 : ¬ caster_id = tid := fun h => htid h.symm
        simp only [setSkillCooldown, WorldState.setPlayer, htid, if_false,
          eq_self_iff_true, if_true] at hpl'
        cases hcase : st.world.players tid with
        | none =>
          rw [hcase] at hpl'
          simp only [eq_self_iff_true, if_true, Option.some.injEq] at hpl'
          subst hpl'
          exact hc1b
        | some target =>
          rw [hcase] at hpl'
          dsimp only at hpl'
          by_cases hdist : ¬ distLe caster.position target.position sd.range = true
          · rw [if_pos hdist] at hpl'
            simp only [eq_self_iff_true, if_true, Option.some.injEq] at hpl'
            subst hpl'
            exact hc1b
          · rw [if_neg hdist] at hpl'
            by_cases haoe : 0 < sd.aoe_radius.getD 0
            · rw [if_pos haoe] at hpl'
              rw [applyAoe_players] at hpl'
              simp only [htid2, if_false, eq_self_iff_true, if_true,
                Option.some.injEq] at hpl'
              subst hpl'
              exact hc1b
            · rw [if_neg haoe] at hpl'
              simp only [htid2, if_false, eq_self_iff_true, if_true,
                Option.some.injEq] at hpl'
              subst hpl'
              exact hc1b
  · -- damage path, npc target
    rename_i x1 player heqp hdead x2 sd heqsd hcd hlvl hheal tid0 tid hnp htype
    rw [hc] at heqp
    injection heqp with ep
    subst ep
    obtain ⟨hcost, hmult, hamount⟩ := get_skill_data_nonneg skill_id sd heqsd
    by_cases hmp : caster.mp < sd.mp_cost
    · rw [if_pos hmp] at hpl'
      dsimp only at hpl'
      rw [hc] at hpl'
      injection hpl' with e
      subst e
      exact hb
    · rw [if_neg hmp] at hpl'
      have hc1b : ({ caster with mp := caster.mp - sd.mp_cost } : PlayerEntity).inBounds :=
        mp_deduct_inBounds hb hcost (not_lt.mp hmp)
      simp only [setSkillCooldown, WorldState.setPlayer] at hpl'
      cases hcase : st.world.npcs tid with
      | none =>
        rw [hcase] at hpl'
        simp only [eq_self_iff_true, if_true, Option.some.injEq] at hpl'
        subst hpl'
        exact hc1b
      | some target =>
        rw [hcase] at hpl'
        dsimp only at hpl'
        by_cases hdist : ¬ distLe caster.position target.position sd.range = true
        · rw [if_pos hdist] at hpl'
          simp only [eq_self_iff_true, if_true, Option.some.injEq] at hpl'
          subst hpl'
          exact hc1b
        · rw [if_neg hdist] at hpl'
          by_cases haoe : 0 < sd.aoe_radius.getD 0
          · rw [if_pos haoe] at hpl'
            rw [applyAoe_players] at hpl'
            simp only [WorldState.setNpc, eq_self_iff_true, if_true,
              Option.some.injEq] at hpl'
            subst hpl'
            exact hc1b
          · rw [if_neg haoe] at hpl'
            simp only [WorldState.setNpc, eq_self_iff_true, if_true,
              Option.some.injEq] at hpl'
            subst hpl'
            exact hc1b
  · -- damage path, unknown target type
    rename_i x1 player heqp hdead x2 sd heqsd hcd hlvl hheal tid0 tid hnp hnn
    rw [hc] at heqp
    injection heqp with ep
    subst ep
    obtain ⟨hcost, hmult, hamount⟩ := get_skill_data_nonneg skill_id sd heqsd
    by_cases hmp : caster.mp < sd.mp_cost
    · rw [if_pos hmp] at hpl'
      dsimp only at hpl'
      rw [hc] at hpl'
      injection hpl' with e
      subst e
      exact hb
    · rw [if_neg hmp] at hpl'
      simp only [setSkillCooldown, WorldState.setPlayer, eq_self_iff_true, if_true,
        Option.some.injEq] at hpl'
      subst hpl'
      exact mp_deduct_inBounds hb hcost (not_lt.mp hmp)

theorem respawn_player_spec (st : CombatState) (character_id : ℕ) (pos : Position)
    (player : PlayerEntity) (hc : st.world.players character_id = some player)
    (pl' : PlayerEntity)
    (hpl' : (respawn_player st character_id pos).2.world.players character_id
      = some pl') :
    pl'.hp = pl'.max_hp ∧ pl'.mp = pl'.max_mp ∧ pl'.is_dead = false ∧
      pl'.max_hp = player.max_hp ∧ pl'.max_mp = player.max_mp := by
  unfold respawn_player at hpl'
  simp only [hc] at hpl'
  unfold WorldState.update_player_position at hpl'
  simp only [WorldState.setPlayer, eq_self_iff_true, if_true] at hpl'
  simp only [PlayerEntity.update_position, Option.some.injEq] at hpl'
  subst hpl'
  exact ⟨rfl, rfl, rfl, rfl, rfl⟩

/-- C10: each of `apply_damage`, `heal`, `restore_mp`, `use_skill` and
`respawn_player` preserves `0 ≤ hp ≤ max_hp` and `0 ≤ mp ≤ max_mp` for the
player it operates on (for non-negative damage/heal amounts and a
non-negative attack stat, as all game values are): damage clamps hp at 0,
heal clamps hp at `max_hp`, `restore_mp` clamps mp at `max_mp`, `use_skill`
deducts only MP it has verified is available, and `respawn_player` sets
hp and mp exactly to their maxima. -/
theorem player_resource_ops_preserve_bounds :
    (∀ (p : PlayerEntity) (damage : ℤ), 0 ≤ damage → p.inBounds →
      (p.apply_damage damage).1.inBounds) ∧
    (∀ (p : PlayerEntity) (amount : ℤ), 0 ≤ amount → p.inBounds →
      (p.heal amount).inBounds) ∧
    (∀ (p : PlayerEntity) (amount : ℤ), 0 ≤ amount → p.inBounds →
      (p.restore_mp amount).inBounds) ∧
    (∀ (st : CombatState) (caster_id skill_id : ℕ) (target_id : Option ℕ)
      (target_type : String) (t v : ℚ) (caster : PlayerEntity),
      st.world.players caster_id = some caster → caster.inBounds → 0 ≤ caster.attack →
      ∀ pl', (use_skill st caster_id skill_id target_id target_type t v).2.world.players
        caster_id = some pl' → pl'.inBounds) ∧
    (∀ (st : CombatState) (character_id : ℕ) (pos : Position) (player : PlayerEntity),
      st.world.players character_id = some player →
      0 ≤ player.max_hp → 0 ≤ player.max_mp →
      ∀ pl', (respawn_player st character_id pos).2.world.players character_id
        = some pl' →
      pl'.hp = pl'.max_hp ∧ pl'.mp = pl'.max_mp ∧ pl'.inBounds) := by
  refine ⟨?_, ?_, ?_, ?_, ?_⟩
  · intro p damage hd hb
    exact apply_damage_inBounds hb hd
  · intro p amount ha hb
    exact heal_inBounds hb ha
  · intro p amount ha hb
    exact restore_mp_inBounds hb ha
  · intro st caster_id skill_id target_id target_type t v caster hc hb hatk pl' hpl'
    exact use_skill_caster_bounds st caster_id skill_id target_id target_type t v
      caster hc hb hatk pl' hpl'
  · intro st character_id pos player hc hmax hmaxmp pl' hpl'
    obtain ⟨h1, h2, _, h4, h5⟩ := respawn_player_spec st character_id pos player hc pl' hpl'
    refine ⟨h1, h2, ?_, ?_, ?_, ?_⟩
    · rw [h1, h4]; exact hmax
    · rw [h1]
    · rw [h2, h5]; exact hmaxmp
    · rw [h2]

/-- The caster entity after the concrete `use_skill` call of the witness. -/
def skillCastResultPlayer : PlayerEntity :=
  { PlayerEntity.init 1 sampleCharacter with mp := 40 }

/-- The player entity after the concrete `respawn_player` call of the witness. -/
def respawnResultPlayer : PlayerEntity :=
  { PlayerEntity.init 1 sampleCharacter with
      hp := 100
      mp := 50
      is_dead := false
      position := ⟨5, 0, 5⟩
      rotation := 0
      chunk_id := get_chunk_id ⟨5, 0, 5⟩ CHUNK_SIZE }

theorem player_resource_ops_preserve_bounds_witness :
    ((PlayerEntity.init 1 sampleCharacter).apply_damage 30).1.inBounds ∧
    ((PlayerEntity.init 1 sampleCharacter).heal 20).inBounds ∧
    ((PlayerEntity.init 1 sampleCharacter).restore_mp 20).inBounds ∧
    skillCastResultPlayer.inBounds ∧
    (respawnResultPlayer.hp = respawnResultPlayer.max_hp ∧
     respawnResultPlayer.mp = respawnResultPlayer.max_mp ∧
     respawnResultPlayer.inBounds) := by
  refine ⟨?_, ?_, ?_, ?_, ?_⟩
  · exact player_resource_ops_preserve_bounds.1 (PlayerEntity.init 1 sampleCharacter) 30
      (by decide) ⟨by decide, by decide, by decide, by decide⟩
  · exact player_resource_ops_preserve_bounds.2.1 (PlayerEntity.init 1 sampleCharacter) 20
      (by decide) ⟨by decide, by decide, by decide, by decide⟩
  · exact player_resource_ops_preserve_bounds.2.2.1 (PlayerEntity.init 1 sampleCharacter) 20
      (by decide) ⟨by decide, by decide, by decide, by decide⟩
  · apply player_resource_ops_preserve_bounds.2.2.2.1 combatW 1 0 none "npc" 10 1
      (PlayerEntity.init 1 sampleCharacter) rfl (by exact ⟨by decide, by decide, by decide, by decide⟩) (by decide)
      skillCastResultPlayer
    show (use_skill combatW 1 0 none "npc" 10 1).2.world.players 1 =
      some skillCastResultPlayer
    simp [use_skill, combatW, WorldState.spawn_npc, WorldState.add_player, WorldState.init,
      PlayerEntity.init, NPCEntity.init, sampleCharacter, sampleNpc, get_skill_data,
      checkSkillCooldown, setSkillCooldown, WorldState.setPlayer, SkillType.HEAL,
      skillCastResultPlayer]
  · apply player_resource_ops_preserve_bounds.2.2.2.2 combatW 1 ⟨5, 0, 5⟩
      (PlayerEntity.init 1 sampleCharacter) rfl (by decide) (by decide) respawnResultPlayer
    show (respawn_player combatW 1 ⟨5, 0, 5⟩).2.world.players 1 = some respawnResultPlayer
    simp [respawn_player, combatW, WorldState.spawn_npc, WorldState.add_player,
      WorldState.init, PlayerEntity.init, NPCEntity.init, sampleCharacter, sampleNpc,
      WorldState.setPlayer, WorldState.update_player_position, PlayerEntity.update_position,
      respawnResultPlayer]

/-! ### Success score and reincarnation (`shared/utils.py`,
`server/game_server/reincarnation_system.py`, `server/database/db_manager.py`) -/

namespace SuccessMetrics

def LEVEL_WEIGHT : ℚ := 3/10
def KILLS_WEIGHT : ℚ := 2/10
def TERRITORY_WEIGHT : ℚ := 25/100
def BOSS_KILLS_WEIGHT : ℚ := 15/100
def PLAYTIME_WEIGHT : ℚ := 1/10

end SuccessMetrics

def REINCARNATION_LEVEL_REQUIREMENT : ℤ := 100
def MAX_REINCARNATIONS : ℤ := 10
def PERK_HP_BONUS : ℚ := 50
def PERK_MP_BONUS : ℚ := 25
def PERK_ATTACK_BONUS : ℚ := 5
def PERK_DEFENSE_BONUS : ℚ := 5
def PERK_SPEED_BONUS : ℚ := 1/2
def PERK_XP_MULTIPLIER : ℚ := 1/10

/-- Source `shared/utils.py` `calculate_success_score`, over the five life
statistics read from the character record. Note the level metric is a plain
quotient; only the other four metrics are passed through `min(_, 1.0)`. -/
def calculate_success_score (level total_kills territory_control_time boss_kills
    playtime : ℤ) : ℚ :=
  let level_score : ℚ := (level : ℚ) / (MAX_LEVEL : ℚ)
  let kills_score := min ((total_kills : ℚ) / 1000) 1
  let territory_score := min ((territory_control_time : ℚ) / 360000) 1
  let boss_kills_score := min ((boss_kills : ℚ) / 50) 1
  let playtime_score := min ((playtime : ℚ) / 720000) 1
  level_score * SuccessMetrics.LEVEL_WEIGHT +
    kills_score * SuccessMetrics.KILLS_WEIGHT +
    territory_score * SuccessMetrics.TERRITORY_WEIGHT +
    boss_kills_score * SuccessMetrics.BOSS_KILLS_WEIGHT +
    playtime_score * SuccessMetrics.PLAYTIME_WEIGHT

/-- C8 counterexample to the claim as stated: the level metric is not
clamped, so a level-600 record with all other statistics zero scores
`0.3 * (600/150) = 1.2`, outside `[0, 1]`. -/
theorem success_score_exceeds_one :
    calculate_success_score 600 0 0 0 0 = 6/5 ∧ ¬ calculate_success_score 600 0 0 0 0 ≤ 1 := by
  constructor <;>
    norm_num [calculate_success_score, MAX_LEVEL, SuccessMetrics.LEVEL_WEIGHT,
      SuccessMetrics.KILLS_WEIGHT, SuccessMetrics.TERRITORY_WEIGHT,
      SuccessMetrics.BOSS_KILLS_WEIGHT, SuccessMetrics.PLAYTIME_WEIGHT]

/-- C8 (amended): for non-negative life statistics with the level at most
`MAX_LEVEL`, the success score lies in `[0, 1]`; the kill, territory, boss
and playtime metrics are clamped at 1 but the level metric is a plain
`level / MAX_LEVEL`; the five weights sum to 1. -/
theorem success_score_range :
    (∀ level kills terr boss play : ℤ, 0 ≤ level → level ≤ MAX_LEVEL →
      0 ≤ kills → 0 ≤ terr → 0 ≤ boss → 0 ≤ play →
      0 ≤ calculate_success_score level kills terr boss play ∧
        calculate_success_score level kills terr boss play ≤ 1) ∧
    SuccessMetrics.LEVEL_WEIGHT + SuccessMetrics.KILLS_WEIGHT +
      SuccessMetrics.TERRITORY_WEIGHT + SuccessMetrics.BOSS_KILLS_WEIGHT +
      SuccessMetrics.PLAYTIME_WEIGHT = 1 := by
  constructor
  · intro level kills terr boss play h1 h2 h3 h4 h5 h6
    have c1 : (0:ℚ) ≤ (level : ℚ) / (MAX_LEVEL : ℚ) := by
      apply div_nonneg
      · exact_mod_cast h1
      · norm_num [MAX_LEVEL]
    have c2 : (level : ℚ) / (MAX_LEVEL : ℚ) ≤ 1 := by
      rw [div_le_one (by norm_num [MAX_LEVEL])]
      have : (level : ℚ) ≤ (MAX_LEVEL : ℚ) := by exact_mod_cast h2
      simpa [MAX_LEVEL] using this
    have k1 : (0:ℚ) ≤ min ((kills : ℚ) / 1000) 1 :=
      le_min (div_nonneg (by exact_mod_cast h3) (by norm_num)) (by norm_num)
    have k2 : min ((kills : ℚ) / 1000) 1 ≤ 1 := min_le_right _ _
    have t1 : (0:ℚ) ≤ min ((terr : ℚ) / 360000) 1 :=
      le_min (div_nonneg (by exact_mod_cast h4) (by norm_num)) (by norm_num)
    have t2 : min ((terr : ℚ) / 360000) 1 ≤ 1 := min_le_right _ _
    have b1 : (0:ℚ) ≤ min ((boss : ℚ) / 50) 1 :=
      le_min (div_nonneg (by exact_mod_cast h5) (by norm_num)) (by norm_num)
    have b2 : min ((boss : ℚ) / 50) 1 ≤ 1 := min_le_right _ _
    have p1 : (0:ℚ) ≤ min ((play : ℚ) / 720000) 1 :=
      le_min (div_nonneg (by exact_mod_cast h6) (by norm_num)) (by norm_num)
    have p2 : min ((play : ℚ) / 720000) 1 ≤ 1 := min_le_right _ _
    unfold calculate_success_score
    simp only [SuccessMetrics.LEVEL_WEIGHT, SuccessMetrics.KILLS_WEIGHT,
      SuccessMetrics.TERRITORY_WEIGHT, SuccessMetrics.BOSS_KILLS_WEIGHT,
      SuccessMetrics.PLAYTIME_WEIGHT]
    constructor <;> nlinarith
  · norm_num [SuccessMetrics.LEVEL_WEIGHT, SuccessMetrics.KILLS_WEIGHT,
      SuccessMetrics.TERRITORY_WEIGHT, SuccessMetrics.BOSS_KILLS_WEIGHT,
      SuccessMetrics.PLAYTIME_WEIGHT]

theorem success_score_range_witness :
    0 ≤ calculate_success_score 100 1 0 0 0 ∧ calculate_success_score 100 1 0 0 0 ≤ 1 :=
  success_score_range.1 100 1 0 0 0 (by norm_num) (by norm_num [MAX_LEVEL]) (by norm_num)
    (by norm_num) (by norm_num) (by norm_num)

/-- A perk dictionary with every key present; a missing key in the Python
dict reads back as its `get(_, 0)` default, which this models as the field
holding 0. -/
structure PerkSet where
  hp_bonus : ℤ
  mp_bonus : ℤ
  attack_bonus : ℤ
  defense_bonus : ℤ
  speed_bonus : ℚ
  xp_multiplier : ℚ
  deriving DecidableEq, Repr

/-- Field-wise sum; the `merged_perks` dict built in `perform_reincarnation`. -/
def PerkSet.add (a b : PerkSet) : PerkSet :=
  { hp_bonus := a.hp_bonus + b.hp_bonus
    mp_bonus := a.mp_bonus + b.mp_bonus
    attack_bonus := a.attack_bonus + b.attack_bonus
    defense_bonus := a.defense_bonus + b.defense_bonus
    speed_bonus := a.speed_bonus + b.speed_bonus
    xp_multiplier := a.xp_multiplier + b.xp_multiplier }

/-- Source `shared/utils.py` `calculate_reincarnation_perks`: integer perk
fields go through Python `int()`, the float fields do not. -/
def calculate_reincarnation_perks (reincarnation_count : ℤ) (success_score : ℚ) :
    PerkSet :=
  let multiplier := (reincarnation_count : ℚ) * success_score
  { hp_bonus := pyInt (PERK_HP_BONUS * multiplier)
    mp_bonus := pyInt (PERK_MP_BONUS * multiplier)
    attack_bonus := pyInt (PERK_ATTACK_BONUS * multiplier)
    defense_bonus := pyInt (PERK_DEFENSE_BONUS * multiplier)
    speed_bonus := PERK_SPEED_BONUS * multiplier
    xp_multiplier := PERK_XP_MULTIPLIER * multiplier }

/-- The character row fields touched by reincarnation. -/
structure Character where
  id : ℕ
  name : String
  level : ℤ
  experience : ℤ
  hp : ℤ
  max_hp : ℤ
  mp : ℤ
  max_mp : ℤ
  total_kills : ℤ
  player_kills : ℤ
  boss_kills : ℤ
  territory_control_time : ℤ
  playtime : ℤ
  reincarnation_count : ℤ
  reincarnation_perks : PerkSet
  deriving DecidableEq, Repr

/-- Source `db_manager.py` `reincarnate_character`: bump the count, reset the
life to starting values, store the merged perks. -/
def reincarnate_character (c : Character) (perks : PerkSet) : Character :=
  { c with
      reincarnation_count := c.reincarnation_count + 1
      level := 1
      experience := 0
      hp := 100
      max_hp := 100
      mp := 50
      max_mp := 50
      total_kills := 0
      player_kills := 0
      boss_kills := 0
      territory_control_time := 0
      playtime := 0
      reincarnation_perks := perks }

/-- Result dict of `perform_reincarnation` (the fields the claims use). -/
structure ReincarnationResult where
  character_id : ℕ
  reincarnation_count : ℤ
  success_score : ℚ
  new_perks : PerkSet
  total_perks : PerkSet
  deriving DecidableEq, Repr

/-- Source `reincarnation_system.py` `perform_reincarnation`; the argument is
the database lookup `get_character_by_id(character_id)`. -/
def perform_reincarnation (character : Option Character) :
    Option (ReincarnationResult × Character) :=
  match character with
  | none => none
  | some c =>
    if c.level < REINCARNATION_LEVEL_REQUIREMENT then none
    else if MAX_REINCARNATIONS ≤ c.reincarnation_count then none
    else
      let success_score := calculate_success_score c.level c.total_kills
        c.territory_control_time c.boss_kills c.playtime
      let new_reincarnation_count := c.reincarnation_count + 1
      let new_perks := calculate_reincarnation_perks new_reincarnation_count success_score
      let merged_perks := PerkSet.add c.reincarnation_perks new_perks
      let c' := reincarnate_character c merged_perks
      some ({ character_id := c.id
              reincarnation_count := new_reincarnation_count
              success_score := success_score
              new_perks := new_perks
              total_perks := merged_perks }, c')

/-- C7 counterexample to the claim as stated: a level-100 character with one
kill has success score `1001/5000`; the fresh hp perk is
`int(50 * 1 * 1001/5000) = 10`, not the exact product `10.01`. -/
def counterexampleChar : Character :=
  { id := 1, name := "Bob", level := 100, experience := 0, hp := 100, max_hp := 100,
    mp := 50, max_mp := 50, total_kills := 1, player_kills := 0, boss_kills := 0,
    territory_control_time := 0, playtime := 0, reincarnation_count := 0,
    reincarnation_perks := ⟨0, 0, 0, 0, 0, 0⟩ }

theorem reincarnation_perk_field_truncated :
    (perform_reincarnation (some counterexampleChar)).map
      (fun rc => rc.2.reincarnation_perks.hp_bonus) = some 10 ∧
    calculate_success_score 100 1 0 0 0 = 1001/5000 ∧
    PERK_HP_BONUS * ((1:ℚ) * (1001/5000)) ≠ ((10 : ℤ) : ℚ) := by
  refine ⟨?_, ?_, by norm_num [PERK_HP_BONUS]⟩
  · have hscore : calculate_success_score 100 1 0 0 0 = 1001/5000 := by
      norm_num [calculate_success_score, MAX_LEVEL, SuccessMetrics.LEVEL_WEIGHT,
        SuccessMetrics.KILLS_WEIGHT, SuccessMetrics.TERRITORY_WEIGHT,
        SuccessMetrics.BOSS_KILLS_WEIGHT, SuccessMetrics.PLAYTIME_WEIGHT]
    simp only [perform_reincarnation, counterexampleChar, reincarnate_character,
      calculate_reincarnation_perks, PerkSet.add, REINCARNATION_LEVEL_REQUIREMENT,
      MAX_REINCARNATIONS]
    norm_num [hscore, pyInt, PERK_HP_BONUS]
  · norm_num [calculate_success_score, MAX_LEVEL, SuccessMetrics.LEVEL_WEIGHT,
      SuccessMetrics.KILLS_WEIGHT, SuccessMetrics.TERRITORY_WEIGHT,
      SuccessMetrics.BOSS_KILLS_WEIGHT, SuccessMetrics.PLAYTIME_WEIGHT]

theorem calculate_success_score_nonneg {level kills terr boss play : ℤ}
    (h1 : 0 ≤ level) (h3 : 0 ≤ kills) (h4 : 0 ≤ terr) (h5 : 0 ≤ boss) (h6 : 0 ≤ play) :
    0 ≤ calculate_success_score level kills terr boss play := by
  have c1 : (0:ℚ) ≤ (level : ℚ) / (MAX_LEVEL : ℚ) := by
    apply div_nonneg
    · exact_mod_cast h1
    · norm_num [MAX_LEVEL]
  have k1 : (0:ℚ) ≤ min ((kills : ℚ) / 1000) 1 :=
    le_min (div_nonneg (by exact_mod_cast h3) (by norm_num)) (by norm_num)
  have t1 : (0:ℚ) ≤ min ((terr : ℚ) / 360000) 1 :=
    le_min (div_nonneg (by exact_mod_cast h4) (by norm_num)) (by norm_num)
  have b1 : (0:ℚ) ≤ min ((boss : ℚ) / 50) 1 :=
    le_min (div_nonneg (by exact_mod_cast h5) (by norm_num)) (by norm_num)
  have p1 : (0:ℚ) ≤ min ((play : ℚ) / 720000) 1 :=
    le_min (div_nonneg (by exact_mod_cast h6) (by norm_num)) (by norm_num)
  unfold calculate_success_score
  simp only [SuccessMetrics.LEVEL_WEIGHT, SuccessMetrics.KILLS_WEIGHT,
    SuccessMetrics.TERRITORY_WEIGHT, SuccessMetrics.BOSS_KILLS_WEIGHT,
    SuccessMetrics.PLAYTIME_WEIGHT]
  nlinarith

/-- C7 (amended): for every successful n-th `perform_reincarnation`, the
persisted perks equal the perks before the call plus
`calculate_reincarnation_perks(n, s)` field by field; each fresh integer
perk field is `int(baseConstant * n * s)` (Python truncation) and each fresh
float field is exactly `baseConstant * n * s`; with non-negative life
statistics no accumulated perk field ever decreases. -/
theorem reincarnation_perks_accumulate (c : Character) (res : ReincarnationResult)
    (c' : Character) (h : perform_reincarnation (some c) = some (res, c')) :
    (c'.reincarnation_perks = PerkSet.add c.reincarnation_perks
      (calculate_reincarnation_perks (c.reincarnation_count + 1)
        (calculate_success_score c.level c.total_kills c.territory_control_time
          c.boss_kills c.playtime)) ∧
     res.new_perks = calculate_reincarnation_perks (c.reincarnation_count + 1)
       (calculate_success_score c.level c.total_kills c.territory_control_time
         c.boss_kills c.playtime) ∧
     res.total_perks = c'.reincarnation_perks ∧
     c'.reincarnation_count = c.reincarnation_count + 1) ∧
    (∀ (n : ℤ) (s : ℚ),
      (calculate_reincarnation_perks n s).hp_bonus = pyInt (PERK_HP_BONUS * (n * s)) ∧
      (calculate_reincarnation_perks n s).mp_bonus = pyInt (PERK_MP_BONUS * (n * s)) ∧
      (calculate_reincarnation_perks n s).attack_bonus
        = pyInt (PERK_ATTACK_BONUS * (n * s)) ∧
      (calculate_reincarnation_perks n s).defense_bonus
        = pyInt (PERK_DEFENSE_BONUS * (n * s)) ∧
      (calculate_reincarnation_perks n s).speed_bonus = PERK_SPEED_BONUS * (n * s) ∧
      (calculate_reincarnation_perks n s).xp_multiplier = PERK_XP_MULTIPLIER * (n * s)) ∧
    (0 ≤ c.reincarnation_count → 0 ≤ c.total_kills → 0 ≤ c.territory_control_time →
     0 ≤ c.boss_kills → 0 ≤ c.playtime →
     c.reincarnation_perks.hp_bonus ≤ c'.reincarnation_perks.hp_bonus ∧
     c.reincarnation_perks.mp_bonus ≤ c'.reincarnation_perks.mp_bonus ∧
     c.reincarnation_perks.attack_bonus ≤ c'.reincarnation_perks.attack_bonus ∧
     c.reincarnation_perks.defense_bonus ≤ c'.reincarnation_perks.defense_bonus ∧
     c.reincarnation_perks.speed_bonus ≤ c'.reincarnation_perks.speed_bonus ∧
     c.reincarnation_perks.xp_multiplier ≤ c'.reincarnation_perks.xp_multiplier) := by
  simp only [perform_reincarnation] at h
  split at h
  · -- level below the requirement
    cases h
  split at h
  · cases h
  rename_i hlvl hcount
  rw [Option.some.injEq, Prod.mk.injEq] at h
  obtain ⟨hres, hc'⟩ := h
  subst hres
  subst hc'
  refine ⟨⟨rfl, rfl, rfl, rfl⟩, ?_, ?_⟩
  · intro n s
    exact ⟨rfl, rfl, rfl, rfl, rfl, rfl⟩
  · intro hrc hkills hterr hboss hplay
    have hlevel : (0:ℤ) ≤ c.level := by
      rw [not_lt] at hlvl
      have : (100:ℤ) ≤ c.level := hlvl
      omega
    have hs : 0 ≤ calculate_success_score c.level c.total_kills
        c.territory_control_time c.boss_kills c.playtime :=
      calculate_success_score_nonneg hlevel hkills hterr hboss hplay
    have hmul : (0:ℚ) ≤ ((c.reincarnation_count + 1 : ℤ) : ℚ) *
        calculate_success_score c.level c.total_kills c.territory_control_time
          c.boss_kills c.playtime := by
      apply mul_nonneg _ hs
      exact_mod_cast (by omega : (0:ℤ) ≤ c.reincarnation_count + 1)
    simp only [reincarnate_character, PerkSet.add, calculate_reincarnation_perks]
    refine ⟨?_, ?_, ?_, ?_, ?_, ?_⟩
    · have hnn := pyInt_nonneg (mul_nonneg
        (by norm_num [PERK_HP_BONUS] : (0:ℚ) ≤ PERK_HP_BONUS) hmul)
      omega
    · have hnn := pyInt_nonneg (mul_nonneg
        (by norm_num [PERK_MP_BONUS] : (0:ℚ) ≤ PERK_MP_BONUS) hmul)
      omega
    · have hnn := pyInt_nonneg (mul_nonneg
        (by norm_num [PERK_ATTACK_BONUS] : (0:ℚ) ≤ PERK_ATTACK_BONUS) hmul)
      omega
    · have hnn := pyInt_nonneg (mul_nonneg
        (by norm_num [PERK_DEFENSE_BONUS] : (0:ℚ) ≤ PERK_DEFENSE_BONUS) hmul)
      omega
    · have hnn := mul_nonneg
        (by norm_num [PERK_SPEED_BONUS] : (0:ℚ) ≤ PERK_SPEED_BONUS) hmul
      linarith [hnn]
    · have hnn := mul_nonneg
        (by norm_num [PERK_XP_MULTIPLIER] : (0:ℚ) ≤ PERK_XP_MULTIPLIER) hmul
      linarith [hnn]

/-- The perks gained by `counterexampleChar`'s first reincarnation. -/
def witnessPerks : PerkSet := ⟨10, 5, 1, 1, 1001/10000, 1001/50000⟩

/-- Source state of `counterexampleChar` after its first reincarnation. -/
def witnessChar : Character := reincarnate_character counterexampleChar witnessPerks

def witnessResult : ReincarnationResult :=
  { character_id := 1, reincarnation_count := 1, success_score := 1001/5000,
    new_perks := witnessPerks, total_perks := witnessPerks }

theorem reincarnation_perks_accumulate_witness :
    witnessChar.reincarnation_perks = PerkSet.add counterexampleChar.reincarnation_perks
      (calculate_reincarnation_perks (counterexampleChar.reincarnation_count + 1)
        (calculate_success_score counterexampleChar.level counterexampleChar.total_kills
          counterexampleChar.territory_control_time counterexampleChar.boss_kills
          counterexampleChar.playtime)) ∧
    witnessChar.reincarnation_count = counterexampleChar.reincarnation_count + 1 := by
  have hscore : calculate_success_score 100 1 0 0 0 = 1001/5000 := by
    norm_num [calculate_success_score, MAX_LEVEL, SuccessMetrics.LEVEL_WEIGHT,
      SuccessMetrics.KILLS_WEIGHT, SuccessMetrics.TERRITORY_WEIGHT,
      SuccessMetrics.BOSS_KILLS_WEIGHT, SuccessMetrics.PLAYTIME_WEIGHT]
  have happ := reincarnation_perks_accumulate counterexampleChar witnessResult witnessChar
    (by
      simp only [perform_reincarnation, counterexampleChar, REINCARNATION_LEVEL_REQUIREMENT,
        MAX_REINCARNATIONS]
      norm_num [hscore, calculate_reincarnation_perks, PerkSet.add, reincarnate_character,
        witnessPerks, witnessChar, witnessResult, pyInt, PERK_HP_BONUS, PERK_MP_BONUS,
        PERK_ATTACK_BONUS, PERK_DEFENSE_BONUS, PERK_SPEED_BONUS, PERK_XP_MULTIPLIER]
      exact ⟨rfl, rfl, rfl⟩)
  exact ⟨happ.1.1, happ.1.2.2.2⟩

/-! ### Wire protocol codec (`subjugate_online/shared/protocol.py`) -/

/-- Source `TERRITORY_CAPTURE_TIME = 60` (constants.py), seconds to capture. -/
def TERRITORY_CAPTURE_TIME : ℚ := 60

/-- Source `MIN_PLAYERS_TO_CAPTURE = 1` (constants.py). -/
def MIN_PLAYERS_TO_CAPTURE : ℕ := 1

/-- Source `TerritoryState.__init__`: static territory data plus the control
state and the active capture attempt. -/
structure TerritoryState where
  territory_id : ℕ
  name : String
  position : Position
  radius : ℚ
  capture_points_required : ℤ
  controller_id : Option ℕ
  controller_name : Option String
  capture_points : ℤ
  last_capture_time : ℚ
  capturing_player_id : Option ℕ
  capture_start_time : ℚ
  deriving DecidableEq, Repr

/-- Source `TerritoryState.is_being_captured`. -/
def TerritoryState.is_being_captured (t : TerritoryState) : Bool :=
  t.capturing_player_id.isSome

/-- Source `TerritoryState.get_capture_progress`:
`min(elapsed / TERRITORY_CAPTURE_TIME, 1.0)` while an attempt is active. -/
def TerritoryState.get_capture_progress (t : TerritoryState) (current_time : ℚ) : ℚ :=
  if t.is_being_captured then
    min ((current_time - t.capture_start_time) / TERRITORY_CAPTURE_TIME) 1
  else 0

/-- Source `TerritorySystem._get_players_in_territory`: alive players whose
distance from the territory's position is at most its radius (the world's
player list is passed explicitly). -/
def get_players_in_territory (players : List PlayerEntity) (t : TerritoryState) :
    List PlayerEntity :=
  players.filter (fun p => !p.is_dead && distLe p.position t.position t.radius)

/-- Source `TerritorySystem._capture_territory`: sets the controller, fills the
capture points, stamps the time and clears the attempt (database writes and
event logging dropped). -/
def capture_territory (t : TerritoryState) (cid : ℕ) (cname : String) (now : ℚ) :
    TerritoryState :=
  { t with controller_id := some cid
           controller_name := some cname
           capture_points := t.capture_points_required
           last_capture_time := now
           capturing_player_id := none
           capture_start_time := 0 }

/-- Source loop body of `TerritorySystem.update` for one player of
`players_in_territory`: skip the controller, start an attempt if none is
active, and commit the attempt once the progress of the player's own attempt
reaches 1. -/
def territory_player_step (now : ℚ) (t : TerritoryState) (p : PlayerEntity) :
    TerritoryState :=
  if some p.character_id = t.controller_id then t
  else if t.is_being_captured = false then
    { t with capturing_player_id := some p.character_id
             capture_start_time := now }
  else if t.capturing_player_id = some p.character_id then
    if 1 ≤ t.get_capture_progress now then capture_territory t p.character_id p.name now
    else t
  else t

/-- Source `TerritorySystem.update` for one territory and one tick: with at
least `MIN_PLAYERS_TO_CAPTURE` alive players inside, fold the capture logic
over them in order; otherwise clear any active attempt. -/
def update_territory (players : List PlayerEntity) (now : ℚ) (t : TerritoryState) :
    TerritoryState :=
  let pin := get_players_in_territory players t
  if MIN_PLAYERS_TO_CAPTURE ≤ pin.length then
    pin.foldl (territory_player_step now) t
  else if t.is_being_captured then
    { t with capturing_player_id := none
             capture_start_time := 0 }
  else t

/-- Invariant carried along the per-player fold of `TerritorySystem.update`:
either the controller is untouched (and the attempt is the pre-tick one, or one
started this tick), or the pre-tick attempt has committed for a player of the
tick's in-territory list after at least `TERRITORY_CAPTURE_TIME` seconds, and
any attempt now active was started this tick. -/
def TerritoryInv (t : TerritoryState) (now : ℚ) (pin : List PlayerEntity)
    (u : TerritoryState) : Prop :=
  (u.controller_id = t.controller_id ∧
    ((u.capturing_player_id = t.capturing_player_id ∧
      u.capture_start_time = t.capture_start_time) ∨
     u.capture_start_time = now)) ∨
  ((∃ p ∈ pin, t.capturing_player_id = some p.character_id ∧
      u.controller_id = some p.character_id ∧
      TERRITORY_CAPTURE_TIME ≤ now - t.capture_start_time) ∧
   (u.capturing_player_id = none ∨ u.capture_start_time = now))

theorem territory_step_inv (t : TerritoryState) (now : ℚ) (pin : List PlayerEntity)
    (p : PlayerEntity) (hp : p ∈ pin) (u : TerritoryState)
    (h : TerritoryInv t now pin u) :
    TerritoryInv t now pin (territory_player_step now u p) := by
  unfold territory_player_step
  split
  · exact h
  · split
    · rcases h with ⟨hc, _⟩ | ⟨hex, _⟩
      · exact Or.inl ⟨hc, Or.inr rfl⟩
      · exact Or.inr ⟨hex, Or.inr rfl⟩
    · rename_i hncap
      split
      · rename_i hcap
        split
        · rename_i hprog
          have hsome : u.is_being_captured = true := by
            unfold TerritoryState.is_being_captured
            rw [hcap]; rfl
          unfold TerritoryState.get_capture_progress at hprog
          rw [hsome, if_pos rfl] at hprog
          rcases h with ⟨hc, hpre | hsn⟩ | ⟨hex, hnone | hsn⟩
          · have hb : TERRITORY_CAPTURE_TIME ≤ now - t.capture_start_time := by
              have h1 := (le_min_iff.mp hprog).1
              rw [le_div_iff₀ (by norm_num [TERRITORY_CAPTURE_TIME] :
                (0:ℚ) < TERRITORY_CAPTURE_TIME)] at h1
              rw [hpre.2] at h1
              linarith
            refine Or.inr ⟨⟨p, hp, ?_, ?_, hb⟩, Or.inl rfl⟩
            · rw [← hpre.1]; exact hcap
            · rfl
          · exfalso
            rw [hsn, sub_self, zero_div] at hprog
            have : (1:ℚ) ≤ 0 := le_trans hprog (min_le_left _ _)
            linarith
          · exact absurd hcap (by rw [hnone]; exact fun hcontra => by cases hcontra)
          · exfalso
            rw [hsn, sub_self, zero_div] at hprog
            have : (1:ℚ) ≤ 0 := le_trans hprog (min_le_left _ _)
            linarith
        · exact h
      · exact h

theorem territory_foldl_inv (t : TerritoryState) (now : ℚ) (pin : List PlayerEntity) :
    ∀ (l : List PlayerEntity) (u : TerritoryState), (∀ p ∈ l, p ∈ pin) →
      TerritoryInv t now pin u →
      TerritoryInv t now pin (l.foldl (territory_player_step now) u)
  | [], _, _, h => h
  | p :: l, u, hsub, h =>
    territory_foldl_inv t now pin l (territory_player_step now u p)
      (fun q hq => hsub q (List.mem_cons_of_mem p hq))
      (territory_step_inv t now pin p (hsub p (List.mem_cons_self p l)) u h)

/-- C2 (amended): per-tick semantics of the territory update. -/
theorem territory_update_semantics (players : List PlayerEntity) (now : ℚ)
    (t : TerritoryState) :
    ((update_territory players now t).controller_id ≠ t.controller_id →
      ∃ p ∈ get_players_in_territory players t,
        t.capturing_player_id = some p.character_id ∧
        (update_territory players now t).controller_id = some p.character_id ∧
        TERRITORY_CAPTURE_TIME ≤ now - t.capture_start_time ∧
        MIN_PLAYERS_TO_CAPTURE ≤ (get_players_in_territory players t).length) ∧
    ((get_players_in_territory players t).length < MIN_PLAYERS_TO_CAPTURE →
      (update_territory players now t).capturing_player_id = none ∧
      (update_territory players now t).get_capture_progress now = 0 ∧
      (update_territory players now t).controller_id = t.controller_id) := by
  constructor
  · intro hchange
    by_cases hmin : MIN_PLAYERS_TO_CAPTURE ≤ (get_players_in_territory players t).length
    · have hu : update_territory players now t =
          (get_players_in_territory players t).foldl (territory_player_step now) t := by
        unfold update_territory
        rw [if_pos hmin]
      rw [hu] at hchange ⊢
      have hinv := territory_foldl_inv t now (get_players_in_territory players t)
        (get_players_in_territory players t) t (fun _ hq => hq)
        (Or.inl ⟨rfl, Or.inl ⟨rfl, rfl⟩⟩)
      rcases hinv with ⟨hc, _⟩ | ⟨⟨p, hpmem, h1, h2, h3⟩, _⟩
      · exact absurd hc hchange
      · exact ⟨p, hpmem, h1, h2, h3, hmin⟩
    · exfalso
      apply hchange
      unfold update_territory
      rw [if_neg hmin]
      by_cases hb : t.is_being_captured
      · rw [if_pos hb]
      · rw [if_neg hb]
  · intro hlt
    have hmin : ¬ MIN_PLAYERS_TO_CAPTURE ≤ (get_players_in_territory players t).length :=
      not_le.mpr hlt
    have hnone : (update_territory players now t).capturing_player_id = none := by
      unfold update_territory
      rw [if_neg hmin]
      by_cases hb : t.is_being_captured
      · rw [if_pos hb]
      · rw [if_neg hb]
        exact Option.not_isSome_iff_eq_none.mp (by simpa [TerritoryState.is_being_captured] using hb)
    refine ⟨hnone, ?_, ?_⟩
    · unfold TerritoryState.get_capture_progress TerritoryState.is_being_captured
      rw [hnone]
      rfl
    · unfold update_territory
      rw [if_neg hmin]
      by_cases hb : t.is_being_captured
      · rw [if_pos hb]
      · rw [if_neg hb]

/-- Player standing at the origin, used in the territory counterexample. -/
def terrPlayerA : PlayerEntity :=
  { character_id := 1, name := "A", level := 1, hp := 100, max_hp := 100,
    mp := 50, max_mp := 50, attack := 10, defense := 5, speed := 5,
    position := ⟨0, 0, 0⟩, rotation := 0, chunk_id := (0, 0), is_dead := false,
    last_attack_time := 0 }

/-- A second player at the origin with a different character id. -/
def terrPlayerB : PlayerEntity :=
  { terrPlayerA with character_id := 2, name := "B" }

/-- An uncontrolled territory of radius 10 at the origin. -/
def sampleTerritory : TerritoryState :=
  { territory_id := 1, name := "Keep", position := ⟨0, 0, 0⟩, radius := 10,
    capture_points_required := 100, controller_id := none, controller_name := none,
    capture_points := 0, last_capture_time := 0, capturing_player_id := none,
    capture_start_time := 0 }

/-- C2 counterexample: player 1 starts capturing at time 0, is absent at the
tick at time 30 (only player 2, who does not match the attempt, is inside, so
the attempt survives), and on returning at time 60 the capture commits — the
controller changes although the capturing player was not present at every
intervening tick. -/
theorem territory_capture_commits_despite_absence :
    (update_territory [terrPlayerA] 0 sampleTerritory).capturing_player_id = some 1 ∧
    (update_territory [terrPlayerB] 30
        (update_territory [terrPlayerA] 0 sampleTerritory)).capturing_player_id = some 1 ∧
    (get_players_in_territory [terrPlayerB]
        (update_territory [terrPlayerA] 0 sampleTerritory)).all
      (fun p => decide (p.character_id ≠ 1)) = true ∧
    (update_territory [terrPlayerB] 30
        (update_territory [terrPlayerA] 0 sampleTerritory)).controller_id = none ∧
    (update_territory [terrPlayerA] 60
        (update_territory [terrPlayerB] 30
          (update_territory [terrPlayerA] 0 sampleTerritory))).controller_id = some 1 := by
  have hdist : distLe (⟨0, 0, 0⟩ : Position) (⟨0, 0, 0⟩ : Position) 10 = true := by
    simp only [distLe, distSq, decide_eq_true_eq]
    norm_num
  have h1 : update_territory [terrPlayerA] 0 sampleTerritory =
      { sampleTerritory with capturing_player_id := some 1, capture_start_time := 0 } := by
    unfold update_territory get_players_in_territory
    norm_num [territory_player_step, terrPlayerA, sampleTerritory, hdist,
      MIN_PLAYERS_TO_CAPTURE, TerritoryState.is_being_captured, List.filter]
    exact fun h => by cases h
  have h2 : update_territory [terrPlayerB] 30
      { sampleTerritory with capturing_player_id := some 1, capture_start_time := 0 } =
      { sampleTerritory with capturing_player_id := some 1, capture_start_time := 0 } := by
    unfold update_territory get_players_in_territory
    norm_num [territory_player_step, terrPlayerB, terrPlayerA, sampleTerritory, hdist,
      MIN_PLAYERS_TO_CAPTURE, TerritoryState.is_being_captured, List.filter]
  have h3 : update_territory [terrPlayerA] 60
      { sampleTerritory with capturing_player_id := some 1, capture_start_time := 0 } =
      { sampleTerritory with
          controller_id := some 1
          controller_name := some "A"
          capture_points := 100
          last_capture_time := 60 } := by
    unfold update_territory get_players_in_territory
    norm_num [territory_player_step, terrPlayerA, sampleTerritory, hdist,
      MIN_PLAYERS_TO_CAPTURE, TerritoryState.is_being_captured,
      TerritoryState.get_capture_progress, TERRITORY_CAPTURE_TIME,
      capture_territory, List.filter]
    exact fun h => by cases h
  rw [h1, h2, h3]
  refine ⟨rfl, rfl, ?_, rfl, rfl⟩
  unfold get_players_in_territory
  norm_num [terrPlayerB, terrPlayerA, sampleTerritory, hdist, List.filter, List.all]

/-- An in-progress capture attempt by player 1 on the sample territory. -/
def clearWitnessTerritory : TerritoryState :=
  { sampleTerritory with capturing_player_id := some 1, capture_start_time := 0 }

/-- Witness for C2: with no players inside, the active attempt is cleared and
the progress resets to zero while the controller is untouched. -/
theorem territory_update_semantics_witness :
    (update_territory [] 5 clearWitnessTerritory).capturing_player_id = none ∧
    (update_territory [] 5 clearWitnessTerritory).get_capture_progress 5 = 0 ∧
    (update_territory [] 5 clearWitnessTerritory).controller_id =
      clearWitnessTerritory.controller_id :=
  (territory_update_semantics [] 5 clearWitnessTerritory).2 (by decide)

namespace Protocol

/-- Byte width of a `struct` format character as used in `HEADER_FORMAT`. -/
def structFieldSize : Char → ℕ
  | 'H' => 2
  | 'I' => 4
  | 'B' => 1
  | _ => 0

/-- Source `Packet.HEADER_FORMAT = '!HIHBB'` (the string in the code;
its inline comment claims `Type(2), Length(4), Sequence(4), Flags(1),
Checksum(1)`). -/
def HEADER_FORMAT : List Char := ['H', 'I', 'H', 'B', 'B']

/-- Source `Packet.HEADER_SIZE = struct.calcsize(HEADER_FORMAT)`. -/
def HEADER_SIZE : ℕ := (HEADER_FORMAT.map structFieldSize).sum

def MAX_PAYLOAD_SIZE : ℕ := 65535

/-- Python `struct.pack('!H', v)`: big-endian 16-bit; raises for `v ≥ 2^16`. -/
def pack_u16 (v : ℕ) : Option (List ℕ) :=
  if v < 2^16 then some [v / 2^8 % 2^8, v % 2^8] else none

/-- Python `struct.pack('!I', v)`. -/
def pack_u32 (v : ℕ) : Option (List ℕ) :=
  if v < 2^32 then some [v / 2^24 % 2^8, v / 2^16 % 2^8, v / 2^8 % 2^8, v % 2^8] else none

/-- Python `struct.pack('!B', v)`. -/
def pack_u8 (v : ℕ) : Option (List ℕ) :=
  if v < 2^8 then some [v] else none

/-- The defined `PacketType` enum values of `protocol.py`. -/
def validPacketType (t : ℕ) : Bool :=
  t ∈ ([0, 1, 2, 3, 4, 5, 6, 7,
        100, 101, 102, 103, 104, 105,
        200, 201, 202, 203, 204, 205, 206,
        300, 301, 302, 303, 304, 305, 306, 307, 308, 309,
        400, 401, 402, 403, 404, 405,
        500, 501, 502, 503, 504, 505, 506,
        600, 601, 602, 603, 604,
        700, 701, 702, 703, 704,
        800, 801, 802, 803, 804, 805,
        900, 901, 902, 903, 999] : List ℕ)

/-- An abstract lossless byte-compression scheme, standing in for the `zlib`
library the codec calls: the verification takes `decompress ∘ compress = id`
(zlib's documented contract) as a hypothesis where needed. -/
structure Codec where
  compress : List ℕ → List ℕ
  decompress : List ℕ → List ℕ

/-- The identity codec; trivially satisfies the zlib contract. -/
def identityCodec : Codec := ⟨fun l => l, fun l => l⟩

/-- Source `Packet` dataclass. Bytes are modelled as lists of naturals. -/
structure Packet where
  packet_type : ℕ
  payload : List ℕ
  compressed : Bool
  encrypted : Bool
  sequence : ℕ
  deriving DecidableEq, Repr

/-- Source `Packet._calculate_checksum`: `sum(data) & 0xFF`. -/
def checksum (data : List ℕ) : ℕ := data.sum % 2^8

/-- Source `Packet.serialize`: compress when the payload exceeds 512 bytes,
set the flag bits, then pack the `'!HIHBB'` header (note the sequence field
is packed with `'H'`). Returns `none` where `struct.pack` would raise. -/
def serialize (pkt : Packet) (comp : Codec) : Option (List ℕ) :=
  let payload :=
    if 512 < pkt.payload.length ∧ pkt.compressed = false then comp.compress pkt.payload
    else pkt.payload
  let compressed := pkt.compressed || decide (512 < pkt.payload.length)
  let flags := (if compressed then 1 else 0) + (if pkt.encrypted then 2 else 0)
  match pack_u16 pkt.packet_type, pack_u32 payload.length, pack_u16 pkt.sequence,
      pack_u8 flags, pack_u8 (checksum payload) with
  | some b_type, some b_len, some b_seq, some b_flags, some b_ck =>
    some (b_type ++ b_len ++ b_seq ++ b_flags ++ b_ck ++ payload)
  | _, _, _, _, _ => none

/-- Source `Packet.deserialize`: header length check, `'!HIHBB'` unpack,
payload length check, checksum check, optional decompression, and the
`PacketType(...)` conversion (which raises for unknown values). -/
def deserialize (data : List ℕ) (comp : Codec) : Except String Packet :=
  match data with
  | t1 :: t0 :: l3 :: l2 :: l1 :: l0 :: s1 :: s0 :: fl :: ck :: rest =>
    let packet_type := t1 * 2^8 + t0
    let payload_length := ((l3 * 2^8 + l2) * 2^8 + l1) * 2^8 + l0
    let sequence := s1 * 2^8 + s0
    if rest.length < payload_length then .error "Insufficient data for packet payload"
    else
      let payload := rest.take payload_length
      if checksum payload ≠ ck then .error "Packet checksum mismatch"
      else
        let compressed := fl % 2 = 1
        let payload := if compressed then comp.decompress payload else payload
        if validPacketType packet_type then
          .ok { packet_type := packet_type, payload := payload
                compressed := compressed, encrypted := fl / 2 % 2 = 1
                sequence := sequence }
        else .error "invalid packet type"
  | _ => .error "Insufficient data for packet header"

theorem validPacketType_lt {t : ℕ} (h : validPacketType t = true) : t < 2^16 := by
  unfold validPacketType at h
  have hmem := of_decide_eq_true h
  have hall : ∀ x ∈ ([0, 1, 2, 3, 4, 5, 6, 7,
        100, 101, 102, 103, 104, 105,
        200, 201, 202, 203, 204, 205, 206,
        300, 301, 302, 303, 304, 305, 306, 307, 308, 309,
        400, 401, 402, 403, 404, 405,
        500, 501, 502, 503, 504, 505, 506,
        600, 601, 602, 603, 604,
        700, 701, 702, 703, 704,
        800, 801, 802, 803, 804, 805,
        900, 901, 902, 903, 999] : List ℕ), x < 2^16 := by decide
  exact hall t hmem

/-- C4: for every packet type in the defined PacketType set and every payload of at
most MAX_PAYLOAD_SIZE bytes, deserializing the bytes produced by serializing a packet
with that type and payload succeeds and yields a packet with the same type and
byte-identical payload, for any compression codec satisfying the zlib contract
(decompress inverts compress, compressed output fits the 4-byte length field);
the compressed flag of the recovered packet is set exactly when the payload was
longer than 512 bytes. -/
theorem packet_roundtrip (comp : Codec)
    (hinv : ∀ l, comp.decompress (comp.compress l) = l)
    (hclen : ∀ l : List ℕ, l.length ≤ MAX_PAYLOAD_SIZE → (comp.compress l).length < 2^32)
    (t : ℕ) (ht : validPacketType t = true) (payload : List ℕ)
    (hlen : payload.length ≤ MAX_PAYLOAD_SIZE) :
    ∃ bytes, serialize ⟨t, payload, false, false, 0⟩ comp = some bytes ∧
      ∃ pkt, deserialize bytes comp = .ok pkt ∧
        pkt.packet_type = t ∧ pkt.payload = payload ∧
        pkt.compressed = decide (512 < payload.length) := by
  have ht16 := validPacketType_lt ht
  by_cases hcomp : 512 < payload.length
  · set wire := comp.compress payload with hwire
    have hplen : wire.length < 2^32 := hclen payload hlen
    have hs : serialize ⟨t, payload, false, false, 0⟩ comp =
        some (t / 2^8 % 2^8 :: t % 2^8 ::
          wire.length / 2^24 % 2^8 :: wire.length / 2^16 % 2^8 ::
          wire.length / 2^8 % 2^8 :: wire.length % 2^8 ::
          0 :: 0 :: 1 :: checksum wire :: wire) := by
      unfold serialize
      rw [if_pos ⟨hcomp, rfl⟩]
      simp only [pack_u16, pack_u32, pack_u8, decide_eq_true hcomp, Bool.false_or,
        if_pos ht16, if_true]
      rw [if_pos hplen, if_pos (show (0:ℕ) < 2^16 by norm_num)]
      simp only [Bool.false_eq_true, if_false, Nat.add_zero, Nat.zero_div, Nat.zero_mod]
      rw [if_pos (show (1:ℕ) < 2^8 by norm_num),
        if_pos (show checksum (comp.compress payload) < 2^8 from Nat.mod_lt _ (by norm_num))]
      simp only [List.cons_append, List.nil_append]
    refine ⟨_, hs, ⟨t, payload, true, false, 0⟩, ?_, rfl, rfl, by simp [hcomp]⟩
    have hpt : t / 2^8 % 2^8 * 2^8 + t % 2^8 = t := by omega
    have hlw : ((wire.length / 2^24 % 2^8 * 2^8 + wire.length / 2^16 % 2^8) * 2^8
        + wire.length / 2^8 % 2^8) * 2^8 + wire.length % 2^8 = wire.length := by omega
    simp only [deserialize, hpt, hlw, lt_irrefl, if_false, lt_self_iff_false,
      List.take_length, ne_eq, not_true_eq_false, ite_false, hwire, hinv, ht, if_true]
    norm_num [ht]
  · have hplen : payload.length < 2^32 := lt_of_le_of_lt hlen (by norm_num [MAX_PAYLOAD_SIZE])
    have hs : serialize ⟨t, payload, false, false, 0⟩ comp =
        some (t / 2^8 % 2^8 :: t % 2^8 ::
          payload.length / 2^24 % 2^8 :: payload.length / 2^16 % 2^8 ::
          payload.length / 2^8 % 2^8 :: payload.length % 2^8 ::
          0 :: 0 :: 0 :: checksum payload :: payload) := by
      unfold serialize
      rw [if_neg (fun hc => hcomp hc.1)]
      simp only [pack_u16, pack_u32, pack_u8, decide_eq_false hcomp, Bool.false_or,
        if_pos ht16, if_true]
      rw [if_pos hplen, if_pos (show (0:ℕ) < 2^16 by norm_num)]
      simp only [Bool.false_eq_true, if_false, Nat.add_zero, Nat.zero_div, Nat.zero_mod]
      rw [if_pos (show (0:ℕ) < 2^8 by norm_num),
        if_pos (show checksum payload < 2^8 from Nat.mod_lt _ (by norm_num))]
      simp only [List.cons_append, List.nil_append]
    refine ⟨_, hs, ⟨t, payload, false, false, 0⟩, ?_, rfl, rfl, by simp [hcomp]⟩
    have hpt : t / 2^8 % 2^8 * 2^8 + t % 2^8 = t := by omega
    have hlw : ((payload.length / 2^24 % 2^8 * 2^8 + payload.length / 2^16 % 2^8) * 2^8
        + payload.length / 2^8 % 2^8) * 2^8 + payload.length % 2^8 = payload.length := by
      omega
    simp only [deserialize, hpt, hlw, lt_irrefl, if_false, lt_self_iff_false,
      List.take_length, ne_eq, not_true_eq_false, ite_false, ht, if_true]
    norm_num [ht]

/-- Witness for C4: the identity codec, packet type 0, payload [5]. -/
theorem packet_roundtrip_witness :
    ∃ bytes, serialize ⟨0, [5], false, false, 0⟩ identityCodec = some bytes ∧
      ∃ pkt, deserialize bytes identityCodec = .ok pkt ∧
        pkt.packet_type = 0 ∧ pkt.payload = [5] ∧
        pkt.compressed = decide (512 < ([5] : List ℕ).length) :=
  packet_roundtrip identityCodec (fun _ => rfl)
    (fun l h => lt_of_le_of_lt h (by norm_num [MAX_PAYLOAD_SIZE]))
    0 (by decide) [5] (by decide)

/-- C6 (code bug): `HEADER_FORMAT = '!HIHBB'` packs the sequence number with
`'H'` (2 bytes), so the real header is 10 bytes, not the documented
`[type:2][length:4][sequence:4][flags:1][checksum:1]` = 12 bytes, and
serialization fails (`struct.error` in Python, `none` here) for every sequence
number that needs more than 16 bits, such as 65536, even though 65536 < 2^32. -/
theorem header_sequence_is_two_bytes :
    HEADER_SIZE = 10 ∧
    serialize { packet_type := 0, payload := [], compressed := false,
                encrypted := false, sequence := 65536 } identityCodec = none ∧
    (65536 : ℕ) < 2^32 := by decide

end Protocol

end Subjugate
